import Mathlib

/-!
Verification development for the PoppyEMU core (src/src/main.c), a research
emulator for the Odin32K microcomputer.  The C source is shallowly embedded:
machine integers are Nat with explicit `% 256` / `% 65536` at the points where
the C types (uint8_t / uint16_t) truncate, the global `struct registers` and
the memory arrays become a `Machine` structure, and every bus access is
recorded in a trace field mirroring the R/W log lines the emulator prints.
The C `rand()` stream (seeded from the boot clock by `srand`) is modelled as
an explicit stream `rng : Nat → Nat` together with a position counter.
-/

set_option maxRecDepth 100000

namespace PoppyEMU

/-- One bus access, as logged by readByte / writeByte (the R/W trace lines). -/
inductive Access where
  | read : Nat → Nat → Access
  | write : Nat → Nat → Access
deriving DecidableEq, Repr

/-- The six architectural registers (struct registers in main.c). -/
structure Registers where
  pc : Nat
  sp : Nat
  a : Nat
  x : Nat
  y : Nat
  p : Nat
deriving DecidableEq, Repr

/-- The memory-side globals of main.c: the three arrays (sysram / rom0 /
rom1) and the modelled rand() stream with its position.  Only readByte and
writeByte touch these. -/
structure Bus where
  sysram : Nat → Nat
  rom0 : Nat → Nat
  rom1 : Nat → Nat
  rng : Nat → Nat
  rngPos : Nat

/-- The whole emulator state: the register file, the bus state, and the
bus-access trace (the R/W log lines the emulator prints). -/
structure Machine where
  registers : Registers
  bus : Bus
  tr : List Access

/-- Status flag masks (FLAG_CARRY .. FLAG_NEGATIVE in main.c). -/
def FLAG_CARRY : Nat := 1
def FLAG_ZERO : Nat := 2
def FLAG_IRQDISABLE : Nat := 4
def FLAG_DECIMAL : Nat := 8
def FLAG_BREAK : Nat := 16
def FLAG_ONE : Nat := 32
def FLAG_OVERFLOW : Nat := 64
def FLAG_NEGATIVE : Nat := 128

/-- The ret computed by readByte of main.c: decode the top 4 bits of the
16-bit address; $0-$7 sysram, $C-$D rom1, $E-$F rom0 (both indexed by
addr & 0x1FFF), everything else (the $8-$B hole, since the I/O cases are
compiled out with #if 0) returns rand() ^ rand().  The uint8_t return
type truncates to 8 bits. -/
def busReadVal (b : Bus) (addr : Nat) : Nat :=
  let a := addr % 65536
  (if a >>> 12 ≤ 0x7 then b.sysram a
   else if 0xC ≤ a >>> 12 ∧ a >>> 12 ≤ 0xD then b.rom1 (a &&& 0x1FFF)
   else if 0xE ≤ a >>> 12 then b.rom0 (a &&& 0x1FFF)
   else b.rng b.rngPos ^^^ b.rng (b.rngPos + 1)) % 256

/-- The side effect of readByte on the bus state: the floating-bus branch
consumes two rand() values; every other branch leaves the bus alone. -/
def busReadBus (b : Bus) (addr : Nat) : Bus :=
  let a := addr % 65536
  if a >>> 12 ≤ 0x7 then b
  else if 0xC ≤ a >>> 12 ∧ a >>> 12 ≤ 0xD then b
  else if 0xE ≤ a >>> 12 then b
  else { b with rngPos := b.rngPos + 2 }

/-- readByte of main.c: compute ret from the decode, consume the rand()
stream when the address is floating, log the access (the R line), and
return.  Reading takes 1 cycle. -/
def readByte (m : Machine) (addr : Nat) : Nat × Machine :=
  (busReadVal m.bus addr,
   { m with bus := busReadBus m.bus addr,
            tr := m.tr ++ [Access.read (addr % 65536) (busReadVal m.bus addr)] })

/-- The effect of writeByte of main.c on the arrays: only the sysram
region $0000-$7FFF is written; all other regions discard the value.  The
uint8_t value parameter truncates to 8 bits. -/
def busWrite (b : Bus) (addr value : Nat) : Bus :=
  let a := addr % 65536
  if a >>> 12 ≤ 0x7 then
    { b with sysram := fun i => if i = a then value % 256 else b.sysram i }
  else b

/-- writeByte of main.c: store through the decode and log the access (the
W line).  Writing takes 1 cycle. -/
def writeByte (m : Machine) (addr value : Nat) : Machine :=
  { m with bus := busWrite m.bus addr value,
           tr := m.tr ++ [Access.write (addr % 65536) (value % 256)] }

/-- Where a bus access with the given address lands: the decode switch of
readByte / writeByte, with the raw array index that would be used. -/
inductive BusTarget where
  | sysramIdx : Nat → BusTarget
  | rom1Idx : Nat → BusTarget
  | rom0Idx : Nat → BusTarget
  | floating : BusTarget
deriving DecidableEq, Repr

/-- The address decode of the bus (the switch in readByte / writeByte). -/
def busIndex (addr : Nat) : BusTarget :=
  let a := addr % 65536
  if a >>> 12 ≤ 0x7 then .sysramIdx a
  else if 0xC ≤ a >>> 12 ∧ a >>> 12 ≤ 0xD then .rom1Idx (a &&& 0x1FFF)
  else if 0xE ≤ a >>> 12 then .rom0Idx (a &&& 0x1FFF)
  else .floating

/-- ucodeSetZNFlags of main.c: Z set iff the (8-bit) value is zero, N copied
from bit 7; the other flag bits are untouched. -/
def ucodeSetZNFlags (value flags : Nat) : Nat :=
  let v := value % 256
  if v ≠ 0 then
    let f := flags &&& (255 - FLAG_ZERO)
    if v &&& 0x80 ≠ 0 then f ||| FLAG_NEGATIVE
    else f &&& (255 - FLAG_NEGATIVE)
  else (flags ||| FLAG_ZERO) &&& (255 - FLAG_NEGATIVE)

/-- ucodeAddWithCarry of main.c: result = a + b + C (a 16-bit intermediate);
ZN from the low 8 bits, C from bit 8, V from (a ^ result) & (b ^ result)
& 0x80.  The uint8_t return truncates the result. -/
def ucodeAddWithCarry (a b flags : Nat) : Nat × Nat :=
  let result := a + b + (if flags &&& FLAG_CARRY ≠ 0 then 1 else 0)
  let f := ucodeSetZNFlags result flags
  let f := if result &&& 0x100 ≠ 0 then f ||| FLAG_CARRY
           else f &&& (255 - FLAG_CARRY)
  let f := if (a ^^^ result) &&& (b ^^^ result) &&& 0x80 ≠ 0 then f ||| FLAG_OVERFLOW
           else f &&& (255 - FLAG_OVERFLOW)
  (result % 256, f)

/-- ucodeSubWithCarry of main.c: replaces b by 255 - b and then performs the
same computation as ucodeAddWithCarry. -/
def ucodeSubWithCarry (a b flags : Nat) : Nat × Nat :=
  let b := 255 - b
  let result := a + b + (if flags &&& FLAG_CARRY ≠ 0 then 1 else 0)
  let f := ucodeSetZNFlags result flags
  let f := if result &&& 0x100 ≠ 0 then f ||| FLAG_CARRY
           else f &&& (255 - FLAG_CARRY)
  let f := if (a ^^^ result) &&& (b ^^^ result) &&& 0x80 ≠ 0 then f ||| FLAG_OVERFLOW
           else f &&& (255 - FLAG_OVERFLOW)
  (result % 256, f)

/-- ucodePush of main.c: write the value at $0100 | SP, then decrement SP
(with the uint8_t wrap).  Returns the new machine and the new SP. -/
def ucodePush (m : Machine) (sp value : Nat) : Machine × Nat :=
  (writeByte m (0x0100 ||| sp) value, (sp + 255) % 256)

/-- ucodePop of main.c: increment SP (uint8_t wrap), then read $0100 | SP.
Returns the value, the machine, and the new SP. -/
def ucodePop (m : Machine) (sp : Nat) : Nat × Machine × Nat :=
  let sp1 := (sp + 1) % 256
  let r := readByte m (0x0100 ||| sp1)
  (r.1, r.2, sp1)

/-- Register update helper: store to registers.pc (uint16_t). -/
def setPC (m : Machine) (v : Nat) : Machine :=
  { m with registers := { m.registers with pc := v } }

/-- Register update helper: store to registers.sp (uint8_t). -/
def setSP (m : Machine) (v : Nat) : Machine :=
  { m with registers := { m.registers with sp := v } }

/-- Register update helper: store to registers.a (uint8_t). -/
def setA (m : Machine) (v : Nat) : Machine :=
  { m with registers := { m.registers with a := v } }

/-- Register update helper: store to registers.x (uint8_t). -/
def setX (m : Machine) (v : Nat) : Machine :=
  { m with registers := { m.registers with x := v } }

/-- Register update helper: store to registers.y (uint8_t). -/
def setY (m : Machine) (v : Nat) : Machine :=
  { m with registers := { m.registers with y := v } }

/-- Register update helper: store to registers.p (uint8_t). -/
def setP (m : Machine) (v : Nat) : Machine :=
  { m with registers := { m.registers with p := v } }

/-- The ++registers.pc / registers.pc++ increment with the uint16_t wrap. -/
def incPC (m : Machine) : Machine := setPC m ((m.registers.pc + 1) % 65536)

/-- case 0xA9: LOAD ACCUMULATOR, IMMEDIATE. -/
def opA9 (m : Machine) : Machine :=
  let r := readByte m m.registers.pc
  let m := incPC r.2
  let m := setA m r.1
  setP m (ucodeSetZNFlags m.registers.a m.registers.p)

/-- case 0xA5: LOAD ACCUMULATOR, ZEROPAGE. -/
def opA5 (m : Machine) : Machine :=
  let r := readByte m m.registers.pc
  let m := incPC r.2
  let rv := readByte m r.1
  let m := setA rv.2 rv.1
  setP m (ucodeSetZNFlags m.registers.a m.registers.p)

/-- case 0xB5: LOAD ACCUMULATOR, ZEROPAGE,X. -/
def opB5 (m : Machine) : Machine :=
  let r := readByte m m.registers.pc
  let m := incPC r.2
  let rd := readByte m r.1
  let ins2 := (r.1 + rd.2.registers.x) % 256
  let rv := readByte rd.2 ins2
  let m := setA rv.2 rv.1
  setP m (ucodeSetZNFlags m.registers.a m.registers.p)

/-- case 0xAD: LOAD ACCUMULATOR, ABSOLUTE. -/
def opAD (m : Machine) : Machine :=
  let rlo := readByte m m.registers.pc
  let m := incPC rlo.2
  let rhi := readByte m m.registers.pc
  let m := incPC rhi.2
  let ins23 := rlo.1 ||| rhi.1 <<< 8
  let rv := readByte m ins23
  let m := setA rv.2 rv.1
  setP m (ucodeSetZNFlags m.registers.a m.registers.p)

/-- case 0xBD: LOAD ACCUMULATOR, ABSOLUTE,X (page-cross dummy read at PC). -/
def opBD (m : Machine) : Machine :=
  let rlo := readByte m m.registers.pc
  let m := incPC rlo.2
  let rhi := readByte m m.registers.pc
  let ins23 := rlo.1 ||| rhi.1 <<< 8
  let ins23x := (ins23 + rhi.2.registers.x) % 65536
  let m := if (ins23x &&& 0xFF00) ≠ (ins23 &&& 0xFF00)
           then (readByte rhi.2 rhi.2.registers.pc).2 else rhi.2
  let m := incPC m
  let rv := readByte m ins23x
  let m := setA rv.2 rv.1
  setP m (ucodeSetZNFlags m.registers.a m.registers.p)

/-- case 0xB9: LOAD ACCUMULATOR, ABSOLUTE,Y. -/
def opB9 (m : Machine) : Machine :=
  let rlo := readByte m m.registers.pc
  let m := incPC rlo.2
  let rhi := readByte m m.registers.pc
  let ins23 := rlo.1 ||| rhi.1 <<< 8
  let ins23y := (ins23 + rhi.2.registers.y) % 65536
  let m := if (ins23y &&& 0xFF00) ≠ (ins23 &&& 0xFF00)
           then (readByte rhi.2 rhi.2.registers.pc).2 else rhi.2
  let m := incPC m
  let rv := readByte m ins23y
  let m := setA rv.2 rv.1
  setP m (ucodeSetZNFlags m.registers.a m.registers.p)

/-- case 0xA1: LOAD ACCUMULATOR, (INDIRECT,X). -/
def opA1 (m : Machine) : Machine :=
  let r := readByte m m.registers.pc
  let m := incPC r.2
  let rd := readByte m r.1
  let ins2 := (r.1 + rd.2.registers.x) % 256
  let rlo := readByte rd.2 ins2
  let rhi := readByte rlo.2 ((ins2 + 1) % 256)
  let addr := rlo.1 ||| rhi.1 <<< 8
  let rv := readByte rhi.2 addr
  let m := setA rv.2 rv.1
  setP m (ucodeSetZNFlags m.registers.a m.registers.p)

/-- case 0xB1: LOAD ACCUMULATOR, (INDIRECT),Y (operand read without pc
increment; the increment happens after the page-cross check). -/
def opB1 (m : Machine) : Machine :=
  let r := readByte m m.registers.pc
  let rlo := readByte r.2 r.1
  let rhi := readByte rlo.2 ((r.1 + 1) % 256)
  let addr := rlo.1 ||| rhi.1 <<< 8
  let addry := (addr + rhi.2.registers.y) % 65536
  let m := if (addry &&& 0xFF00) ≠ (addr &&& 0xFF00)
           then (readByte rhi.2 rhi.2.registers.pc).2 else rhi.2
  let m := incPC m
  let rv := readByte m addry
  let m := setA rv.2 rv.1
  setP m (ucodeSetZNFlags m.registers.a m.registers.p)

/-- case 0xA2: LOAD X REGISTER, IMMEDIATE. -/
def opA2 (m : Machine) : Machine :=
  let r := readByte m m.registers.pc
  let m := incPC r.2
  let m := setX m r.1
  setP m (ucodeSetZNFlags m.registers.x m.registers.p)

/-- case 0xA6: LOAD X REGISTER, ZEROPAGE. -/
def opA6 (m : Machine) : Machine :=
  let r := readByte m m.registers.pc
  let m := incPC r.2
  let rv := readByte m r.1
  let m := setX rv.2 rv.1
  setP m (ucodeSetZNFlags m.registers.x m.registers.p)

/-- case 0xB6: LOAD X REGISTER, ZEROPAGE,Y. -/
def opB6 (m : Machine) : Machine :=
  let r := readByte m m.registers.pc
  let m := incPC r.2
  let rd := readByte m r.1
  let ins2 := (r.1 + rd.2.registers.y) % 256
  let rv := readByte rd.2 ins2
  let m := setX rv.2 rv.1
  setP m (ucodeSetZNFlags m.registers.x m.registers.p)

/-- case 0xAE: LOAD X REGISTER, ABSOLUTE. -/
def opAE (m : Machine) : Machine :=
  let rlo := readByte m m.registers.pc
  let m := incPC rlo.2
  let rhi := readByte m m.registers.pc
  let m := incPC rhi.2
  let ins23 := rlo.1 ||| rhi.1 <<< 8
  let rv := readByte m ins23
  let m := setX rv.2 rv.1
  setP m (ucodeSetZNFlags m.registers.x m.registers.p)

/-- case 0xBE: LOAD X REGISTER, ABSOLUTE,Y (note: the source never performs
the second pc increment in this handler). -/
def opBE (m : Machine) : Machine :=
  let rlo := readByte m m.registers.pc
  let m := incPC rlo.2
  let rhi := readByte m m.registers.pc
  let ins23 := rlo.1 ||| rhi.1 <<< 8
  let ins23y := (ins23 + rhi.2.registers.y) % 65536
  let m := if (ins23y &&& 0xFF00) ≠ (ins23 &&& 0xFF00)
           then (readByte rhi.2 rhi.2.registers.pc).2 else rhi.2
  let rv := readByte m ins23y
  let m := setX rv.2 rv.1
  setP m (ucodeSetZNFlags m.registers.x m.registers.p)

/-- case 0xA0: LOAD Y REGISTER, IMMEDIATE. -/
def opA0 (m : Machine) : Machine :=
  let r := readByte m m.registers.pc
  let m := incPC r.2
  let m := setY m r.1
  setP m (ucodeSetZNFlags m.registers.y m.registers.p)

/-- case 0xA4: LOAD Y REGISTER, ZEROPAGE. -/
def opA4 (m : Machine) : Machine :=
  let r := readByte m m.registers.pc
  let m := incPC r.2
  let rv := readByte m r.1
  let m := setY rv.2 rv.1
  setP m (ucodeSetZNFlags m.registers.y m.registers.p)

/-- case 0xB4: LOAD Y REGISTER, ZEROPAGE,X. -/
def opB4 (m : Machine) : Machine :=
  let r := readByte m m.registers.pc
  let m := incPC r.2
  let rd := readByte m r.1
  let ins2 := (r.1 + rd.2.registers.x) % 256
  let rv := readByte rd.2 ins2
  let m := setY rv.2 rv.1
  setP m (ucodeSetZNFlags m.registers.y m.registers.p)

/-- case 0xAC: LOAD Y REGISTER, ABSOLUTE. -/
def opAC (m : Machine) : Machine :=
  let rlo := readByte m m.registers.pc
  let m := incPC rlo.2
  let rhi := readByte m m.registers.pc
  let m := incPC rhi.2
  let ins23 := rlo.1 ||| rhi.1 <<< 8
  let rv := readByte m ins23
  let m := setY rv.2 rv.1
  setP m (ucodeSetZNFlags m.registers.y m.registers.p)

/-- case 0xBC: LOAD Y REGISTER, ABSOLUTE,X. -/
def opBC (m : Machine) : Machine :=
  let rlo := readByte m m.registers.pc
  let m := incPC rlo.2
  let rhi := readByte m m.registers.pc
  let ins23 := rlo.1 ||| rhi.1 <<< 8
  let ins23x := (ins23 + rhi.2.registers.x) % 65536
  let m := if (ins23x &&& 0xFF00) ≠ (ins23 &&& 0xFF00)
           then (readByte rhi.2 rhi.2.registers.pc).2 else rhi.2
  let m := incPC m
  let rv := readByte m ins23x
  let m := setY rv.2 rv.1
  setP m (ucodeSetZNFlags m.registers.y m.registers.p)

/-- case 0x85: STORE ACCUMULATOR, ZEROPAGE. -/
def op85 (m : Machine) : Machine :=
  let r := readByte m m.registers.pc
  let m := incPC r.2
  writeByte m r.1 m.registers.a

/-- case 0x95: STORE ACCUMULATOR, ZEROPAGE,X. -/
def op95 (m : Machine) : Machine :=
  let r := readByte m m.registers.pc
  let m := incPC r.2
  let rd := readByte m r.1
  let ins2 := (r.1 + rd.2.registers.x) % 256
  writeByte rd.2 ins2 rd.2.registers.a

/-- case 0x8D: STORE ACCUMULATOR, ABSOLUTE. -/
def op8D (m : Machine) : Machine :=
  let rlo := readByte m m.registers.pc
  let m := incPC rlo.2
  let rhi := readByte m m.registers.pc
  let m := incPC rhi.2
  let ins23 := rlo.1 ||| rhi.1 <<< 8
  writeByte m ins23 m.registers.a

/-- case 0x9D: STORE ACCUMULATOR, ABSOLUTE,X (unconditional dummy read of
the byte at PC). -/
def op9D (m : Machine) : Machine :=
  let rlo := readByte m m.registers.pc
  let m := incPC rlo.2
  let rhi := readByte m m.registers.pc
  let ins23 := rlo.1 ||| rhi.1 <<< 8
  let ins23x := (ins23 + rhi.2.registers.x) % 65536
  let rd := readByte rhi.2 rhi.2.registers.pc
  let m := incPC rd.2
  writeByte m ins23x m.registers.a

/-- case 0x99: STORE ACCUMULATOR, ABSOLUTE,Y (unconditional dummy read of
the byte at PC). -/
def op99 (m : Machine) : Machine :=
  let rlo := readByte m m.registers.pc
  let m := incPC rlo.2
  let rhi := readByte m m.registers.pc
  let ins23 := rlo.1 ||| rhi.1 <<< 8
  let ins23y := (ins23 + rhi.2.registers.y) % 65536
  let rd := readByte rhi.2 rhi.2.registers.pc
  let m := incPC rd.2
  writeByte m ins23y m.registers.a

/-- case 0x81: STORE ACCUMULATOR, (INDIRECT,X). -/
def op81 (m : Machine) : Machine :=
  let r := readByte m m.registers.pc
  let m := incPC r.2
  let rd := readByte m r.1
  let ins2 := (r.1 + rd.2.registers.x) % 256
  let rlo := readByte rd.2 ins2
  let rhi := readByte rlo.2 ((ins2 + 1) % 256)
  let addr := rlo.1 ||| rhi.1 <<< 8
  writeByte rhi.2 addr rhi.2.registers.a

/-- case 0x91: STORE ACCUMULATOR, (INDIRECT),Y. -/
def op91 (m : Machine) : Machine :=
  let r := readByte m m.registers.pc
  let rlo := readByte r.2 r.1
  let rhi := readByte rlo.2 ((r.1 + 1) % 256)
  let addr := rlo.1 ||| rhi.1 <<< 8
  let addry := (addr + rhi.2.registers.y) % 65536
  let rd := readByte rhi.2 rhi.2.registers.pc
  let m := incPC rd.2
  writeByte m addry m.registers.a

/-- case 0x86: STORE X REGISTER, ZEROPAGE. -/
def op86 (m : Machine) : Machine :=
  let r := readByte m m.registers.pc
  let m := incPC r.2
  writeByte m r.1 m.registers.x

/-- case 0x96: STORE X REGISTER, ZEROPAGE,Y. -/
def op96 (m : Machine) : Machine :=
  let r := readByte m m.registers.pc
  let m := incPC r.2
  let rd := readByte m r.1
  let ins2 := (r.1 + rd.2.registers.y) % 256
  writeByte rd.2 ins2 rd.2.registers.x

/-- case 0x8E: STORE X REGISTER, ABSOLUTE. -/
def op8E (m : Machine) : Machine :=
  let rlo := readByte m m.registers.pc
  let m := incPC rlo.2
  let rhi := readByte m m.registers.pc
  let m := incPC rhi.2
  let ins23 := rlo.1 ||| rhi.1 <<< 8
  writeByte m ins23 m.registers.x

/-- case 0x84: STORE Y REGISTER, ZEROPAGE. -/
def op84 (m : Machine) : Machine :=
  let r := readByte m m.registers.pc
  let m := incPC r.2
  writeByte m r.1 m.registers.y

/-- case 0x94: STORE Y REGISTER, ZEROPAGE,X. -/
def op94 (m : Machine) : Machine :=
  let r := readByte m m.registers.pc
  let m := incPC r.2
  let rd := readByte m r.1
  let ins2 := (r.1 + rd.2.registers.x) % 256
  writeByte rd.2 ins2 rd.2.registers.y

/-- case 0x8C: STORE Y REGISTER, ABSOLUTE. -/
def op8C (m : Machine) : Machine :=
  let rlo := readByte m m.registers.pc
  let m := incPC rlo.2
  let rhi := readByte m m.registers.pc
  let m := incPC rhi.2
  let ins23 := rlo.1 ||| rhi.1 <<< 8
  writeByte m ins23 m.registers.y

/-- case 0xAA: TRANSFER ACCUMULATOR TO X REGISTER, IMPLIED. -/
def opAA (m : Machine) : Machine :=
  let r := readByte m m.registers.pc
  let m := setX r.2 r.2.registers.a
  setP m (ucodeSetZNFlags m.registers.x m.registers.p)

/-- case 0xA8: TRANSFER ACCUMULATOR TO Y REGISTER, IMPLIED. -/
def opA8 (m : Machine) : Machine :=
  let r := readByte m m.registers.pc
  let m := setY r.2 r.2.registers.a
  setP m (ucodeSetZNFlags m.registers.y m.registers.p)

/-- case 0xBA: TRANSFER STACK POINTER TO X REGISTER, IMPLIED. -/
def opBA (m : Machine) : Machine :=
  let r := readByte m m.registers.pc
  let m := setX r.2 r.2.registers.sp
  setP m (ucodeSetZNFlags m.registers.x m.registers.p)

/-- case 0x8A: TRANSFER X REGISTER TO ACCUMULATOR, IMPLIED. -/
def op8A (m : Machine) : Machine :=
  let r := readByte m m.registers.pc
  let m := setA r.2 r.2.registers.x
  setP m (ucodeSetZNFlags m.registers.a m.registers.p)

/-- case 0x9A: TRANSFER X REGISTER TO STACK POINTER, IMPLIED (no flags). -/
def op9A (m : Machine) : Machine :=
  let r := readByte m m.registers.pc
  setSP r.2 r.2.registers.x

/-- case 0x98: TRANSFER Y REGISTER TO ACCUMULATOR, IMPLIED. -/
def op98 (m : Machine) : Machine :=
  let r := readByte m m.registers.pc
  let m := setA r.2 r.2.registers.y
  setP m (ucodeSetZNFlags m.registers.a m.registers.p)

/-- case 0x48: PUSH ACCUMULATOR, IMPLIED. -/
def op48 (m : Machine) : Machine :=
  let r := readByte m m.registers.pc
  let pr := ucodePush r.2 r.2.registers.sp r.2.registers.a
  setSP pr.1 pr.2

/-- case 0x08: PUSH STATUS FLAGS, IMPLIED (pushes P | B | bit5). -/
def op08 (m : Machine) : Machine :=
  let r := readByte m m.registers.pc
  let pr := ucodePush r.2 r.2.registers.sp
              (r.2.registers.p ||| FLAG_BREAK ||| FLAG_ONE)
  setSP pr.1 pr.2

/-- case 0x68: POP ACCUMULATOR, IMPLIED (with the stack predecrement dummy
read at $0100 | SP). -/
def op68 (m : Machine) : Machine :=
  let r := readByte m m.registers.pc
  let rd := readByte r.2 (0x0100 ||| r.2.registers.sp)
  let po := ucodePop rd.2 rd.2.registers.sp
  let m := setSP po.2.1 po.2.2
  let m := setA m po.1
  setP m (ucodeSetZNFlags m.registers.a m.registers.p)

/-- case 0x28: POP STATUS FLAGS, IMPLIED. -/
def op28 (m : Machine) : Machine :=
  let r := readByte m m.registers.pc
  let rd := readByte r.2 (0x0100 ||| r.2.registers.sp)
  let po := ucodePop rd.2 rd.2.registers.sp
  let m := setSP po.2.1 po.2.2
  setP m po.1

/-- case 0xE6: INCREMENT MEMORY, ZEROPAGE (dummy read, real read, write,
all at the operand address). -/
def opE6 (m : Machine) : Machine :=
  let r := readByte m m.registers.pc
  let m := incPC r.2
  let rd := readByte m r.1
  let rv := readByte rd.2 r.1
  let value := (rv.1 + 1) % 256
  let m := setP rv.2 (ucodeSetZNFlags value rv.2.registers.p)
  writeByte m r.1 value

/-- case 0xF6: INCREMENT MEMORY, ZEROPAGE,X (both dummy reads at the
un-indexed operand address). -/
def opF6 (m : Machine) : Machine :=
  let r := readByte m m.registers.pc
  let m := incPC r.2
  let rd1 := readByte m r.1
  let rd2 := readByte rd1.2 r.1
  let ins2 := (r.1 + rd2.2.registers.x) % 256
  let rv := readByte rd2.2 ins2
  let value := (rv.1 + 1) % 256
  let m := setP rv.2 (ucodeSetZNFlags value rv.2.registers.p)
  writeByte m ins2 value

/-- case 0xEE: INCREMENT MEMORY, ABSOLUTE. -/
def opEE (m : Machine) : Machine :=
  let rlo := readByte m m.registers.pc
  let m := incPC rlo.2
  let rhi := readByte m m.registers.pc
  let m := incPC rhi.2
  let ins23 := rlo.1 ||| rhi.1 <<< 8
  let rd := readByte m ins23
  let rv := readByte rd.2 ins23
  let value := (rv.1 + 1) % 256
  let m := setP rv.2 (ucodeSetZNFlags value rv.2.registers.p)
  writeByte m ins23 value

/-- case 0xFE: INCREMENT MEMORY, ABSOLUTE,X (an unconditional read at the
un-indexed base address, then a page-cross dummy read at PC only when the
page crossed). -/
def opFE (m : Machine) : Machine :=
  let rlo := readByte m m.registers.pc
  let m := incPC rlo.2
  let rhi := readByte m m.registers.pc
  let ins23 := rlo.1 ||| rhi.1 <<< 8
  let rb := readByte rhi.2 ins23
  let ins23x := (ins23 + rb.2.registers.x) % 65536
  let m := if (ins23x &&& 0xFF00) ≠ (ins23 &&& 0xFF00)
           then (readByte rb.2 rb.2.registers.pc).2 else rb.2
  let m := incPC m
  let rv := readByte m ins23x
  let value := (rv.1 + 1) % 256
  let m := setP rv.2 (ucodeSetZNFlags value rv.2.registers.p)
  writeByte m ins23x value

/-- case 0xE8: INCREMENT X REGISTER, IMPLIED. -/
def opE8 (m : Machine) : Machine :=
  let r := readByte m m.registers.pc
  let m := setX r.2 ((r.2.registers.x + 1) % 256)
  setP m (ucodeSetZNFlags m.registers.x m.registers.p)

/-- case 0xC8: INCREMENT Y REGISTER, IMPLIED. -/
def opC8 (m : Machine) : Machine :=
  let r := readByte m m.registers.pc
  let m := setY r.2 ((r.2.registers.y + 1) % 256)
  setP m (ucodeSetZNFlags m.registers.y m.registers.p)

/-- case 0xC6: DECREMENT MEMORY, ZEROPAGE. -/
def opC6 (m : Machine) : Machine :=
  let r := readByte m m.registers.pc
  let m := incPC r.2
  let rd := readByte m r.1
  let rv := readByte rd.2 r.1
  let value := (rv.1 + 255) % 256
  let m := setP rv.2 (ucodeSetZNFlags value rv.2.registers.p)
  writeByte m r.1 value

/-- case 0xD6: DECREMENT MEMORY, ZEROPAGE,X. -/
def opD6 (m : Machine) : Machine :=
  let r := readByte m m.registers.pc
  let m := incPC r.2
  let rd1 := readByte m r.1
  let rd2 := readByte rd1.2 r.1
  let ins2 := (r.1 + rd2.2.registers.x) % 256
  let rv := readByte rd2.2 ins2
  let value := (rv.1 + 255) % 256
  let m := setP rv.2 (ucodeSetZNFlags value rv.2.registers.p)
  writeByte m ins2 value

/-- case 0xCE: DECREMENT MEMORY, ABSOLUTE. -/
def opCE (m : Machine) : Machine :=
  let rlo := readByte m m.registers.pc
  let m := incPC rlo.2
  let rhi := readByte m m.registers.pc
  let m := incPC rhi.2
  let ins23 := rlo.1 ||| rhi.1 <<< 8
  let rd := readByte m ins23
  let rv := readByte rd.2 ins23
  let value := (rv.1 + 255) % 256
  let m := setP rv.2 (ucodeSetZNFlags value rv.2.registers.p)
  writeByte m ins23 value

/-- case 0xDE: DECREMENT MEMORY, ABSOLUTE,X. -/
def opDE (m : Machine) : Machine :=
  let rlo := readByte m m.registers.pc
  let m := incPC rlo.2
  let rhi := readByte m m.registers.pc
  let ins23 := rlo.1 ||| rhi.1 <<< 8
  let rb := readByte rhi.2 ins23
  let ins23x := (ins23 + rb.2.registers.x) % 65536
  let m := if (ins23x &&& 0xFF00) ≠ (ins23 &&& 0xFF00)
           then (readByte rb.2 rb.2.registers.pc).2 else rb.2
  let m := incPC m
  let rv := readByte m ins23x
  let value := (rv.1 + 255) % 256
  let m := setP rv.2 (ucodeSetZNFlags value rv.2.registers.p)
  writeByte m ins23x value

/-- case 0xCA: DECREMENT X REGISTER, IMPLIED. -/
def opCA (m : Machine) : Machine :=
  let r := readByte m m.registers.pc
  let m := setX r.2 ((r.2.registers.x + 255) % 256)
  setP m (ucodeSetZNFlags m.registers.x m.registers.p)

/-- case 0x88: DECREMENT Y REGISTER, IMPLIED. -/
def op88 (m : Machine) : Machine :=
  let r := readByte m m.registers.pc
  let m := setY r.2 ((r.2.registers.y + 255) % 256)
  setP m (ucodeSetZNFlags m.registers.y m.registers.p)

/-- case 0x69: ADD WITH CARRY TO ACCUMULATOR, IMMEDIATE. -/
def op69 (m : Machine) : Machine :=
  let r := readByte m m.registers.pc
  let m := incPC r.2
  let ar := ucodeAddWithCarry m.registers.a r.1 m.registers.p
  let m := setA m ar.1
  setP m ar.2

/-- case 0x65: ADD WITH CARRY TO ACCUMULATOR, ZEROPAGE. -/
def op65 (m : Machine) : Machine :=
  let r := readByte m m.registers.pc
  let m := incPC r.2
  let rv := readByte m r.1
  let ar := ucodeAddWithCarry rv.2.registers.a rv.1 rv.2.registers.p
  let m := setA rv.2 ar.1
  setP m ar.2

/-- case 0x75: ADD WITH CARRY TO ACCUMULATOR, ZEROPAGE,X. -/
def op75 (m : Machine) : Machine :=
  let r := readByte m m.registers.pc
  let m := incPC r.2
  let rd := readByte m r.1
  let ins2 := (r.1 + rd.2.registers.x) % 256
  let rv := readByte rd.2 ins2
  let ar := ucodeAddWithCarry rv.2.registers.a rv.1 rv.2.registers.p
  let m := setA rv.2 ar.1
  setP m ar.2

/-- case 0x6D: ADD WITH CARRY TO ACCUMULATOR, ABSOLUTE. -/
def op6D (m : Machine) : Machine :=
  let rlo := readByte m m.registers.pc
  let m := incPC rlo.2
  let rhi := readByte m m.registers.pc
  let m := incPC rhi.2
  let ins23 := rlo.1 ||| rhi.1 <<< 8
  let rv := readByte m ins23
  let ar := ucodeAddWithCarry rv.2.registers.a rv.1 rv.2.registers.p
  let m := setA rv.2 ar.1
  setP m ar.2

/-- case 0x7D: ADD WITH CARRY TO ACCUMULATOR, ABSOLUTE,X. -/
def op7D (m : Machine) : Machine :=
  let rlo := readByte m m.registers.pc
  let m := incPC rlo.2
  let rhi := readByte m m.registers.pc
  let ins23 := rlo.1 ||| rhi.1 <<< 8
  let ins23x := (ins23 + rhi.2.registers.x) % 65536
  let m := if (ins23x &&& 0xFF00) ≠ (ins23 &&& 0xFF00)
           then (readByte rhi.2 rhi.2.registers.pc).2 else rhi.2
  let m := incPC m
  let rv := readByte m ins23x
  let ar := ucodeAddWithCarry rv.2.registers.a rv.1 rv.2.registers.p
  let m := setA rv.2 ar.1
  setP m ar.2

/-- case 0x79: ADD WITH CARRY TO ACCUMULATOR, ABSOLUTE,Y. -/
def op79 (m : Machine) : Machine :=
  let rlo := readByte m m.registers.pc
  let m := incPC rlo.2
  let rhi := readByte m m.registers.pc
  let ins23 := rlo.1 ||| rhi.1 <<< 8
  let ins23y := (ins23 + rhi.2.registers.y) % 65536
  let m := if (ins23y &&& 0xFF00) ≠ (ins23 &&& 0xFF00)
           then (readByte rhi.2 rhi.2.registers.pc).2 else rhi.2
  let m := incPC m
  let rv := readByte m ins23y
  let ar := ucodeAddWithCarry rv.2.registers.a rv.1 rv.2.registers.p
  let m := setA rv.2 ar.1
  setP m ar.2

/-- case 0x61: ADD WITH CARRY TO ACCUMULATOR, (INDIRECT,X). -/
def op61 (m : Machine) : Machine :=
  let r := readByte m m.registers.pc
  let m := incPC r.2
  let rd := readByte m r.1
  let ins2 := (r.1 + rd.2.registers.x) % 256
  let rlo := readByte rd.2 ins2
  let rhi := readByte rlo.2 ((ins2 + 1) % 256)
  let addr := rlo.1 ||| rhi.1 <<< 8
  let rv := readByte rhi.2 addr
  let ar := ucodeAddWithCarry rv.2.registers.a rv.1 rv.2.registers.p
  let m := setA rv.2 ar.1
  setP m ar.2

/-- case 0x71: ADD WITH CARRY TO ACCUMULATOR, (INDIRECT),Y. -/
def op71 (m : Machine) : Machine :=
  let r := readByte m m.registers.pc
  let rlo := readByte r.2 r.1
  let rhi := readByte rlo.2 ((r.1 + 1) % 256)
  let addr := rlo.1 ||| rhi.1 <<< 8
  let addry := (addr + rhi.2.registers.y) % 65536
  let m := if (addry &&& 0xFF00) ≠ (addr &&& 0xFF00)
           then (readByte rhi.2 rhi.2.registers.pc).2 else rhi.2
  let m := incPC m
  let rv := readByte m addry
  let ar := ucodeAddWithCarry rv.2.registers.a rv.1 rv.2.registers.p
  let m := setA rv.2 ar.1
  setP m ar.2

/-- case 0x72: ADD WITH CARRY TO ACCUMULATOR, (ZEROPAGE) (65C02 mode). -/
def op72 (m : Machine) : Machine :=
  let r := readByte m m.registers.pc
  let m := incPC r.2
  let rlo := readByte m r.1
  let rhi := readByte rlo.2 ((r.1 + 1) % 256)
  let addr := rlo.1 ||| rhi.1 <<< 8
  let rv := readByte rhi.2 addr
  let ar := ucodeAddWithCarry rv.2.registers.a rv.1 rv.2.registers.p
  let m := setA rv.2 ar.1
  setP m ar.2

/-- case 0xE9: SUBTRACT WITH BORROW FROM ACCUMULATOR, IMMEDIATE. -/
def opE9 (m : Machine) : Machine :=
  let r := readByte m m.registers.pc
  let m := incPC r.2
  let ar := ucodeSubWithCarry m.registers.a r.1 m.registers.p
  let m := setA m ar.1
  setP m ar.2

/-- case 0xE5: SUBTRACT WITH BORROW FROM ACCUMULATOR, ZEROPAGE. -/
def opE5 (m : Machine) : Machine :=
  let r := readByte m m.registers.pc
  let m := incPC r.2
  let rv := readByte m r.1
  let ar := ucodeSubWithCarry rv.2.registers.a rv.1 rv.2.registers.p
  let m := setA rv.2 ar.1
  setP m ar.2

/-- case 0xF5: SUBTRACT WITH BORROW FROM ACCUMULATOR, ZEROPAGE,X. -/
def opF5 (m : Machine) : Machine :=
  let r := readByte m m.registers.pc
  let m := incPC r.2
  let rd := readByte m r.1
  let ins2 := (r.1 + rd.2.registers.x) % 256
  let rv := readByte rd.2 ins2
  let ar := ucodeSubWithCarry rv.2.registers.a rv.1 rv.2.registers.p
  let m := setA rv.2 ar.1
  setP m ar.2

/-- case 0xED: SUBTRACT WITH BORROW FROM ACCUMULATOR, ABSOLUTE. -/
def opED (m : Machine) : Machine :=
  let rlo := readByte m m.registers.pc
  let m := incPC rlo.2
  let rhi := readByte m m.registers.pc
  let m := incPC rhi.2
  let ins23 := rlo.1 ||| rhi.1 <<< 8
  let rv := readByte m ins23
  let ar := ucodeSubWithCarry rv.2.registers.a rv.1 rv.2.registers.p
  let m := setA rv.2 ar.1
  setP m ar.2

/-- case 0xFD: SUBTRACT WITH BORROW FROM ACCUMULATOR, ABSOLUTE,X. -/
def opFD (m : Machine) : Machine :=
  let rlo := readByte m m.registers.pc
  let m := incPC rlo.2
  let rhi := readByte m m.registers.pc
  let ins23 := rlo.1 ||| rhi.1 <<< 8
  let ins23x := (ins23 + rhi.2.registers.x) % 65536
  let m := if (ins23x &&& 0xFF00) ≠ (ins23 &&& 0xFF00)
           then (readByte rhi.2 rhi.2.registers.pc).2 else rhi.2
  let m := incPC m
  let rv := readByte m ins23x
  let ar := ucodeSubWithCarry rv.2.registers.a rv.1 rv.2.registers.p
  let m := setA rv.2 ar.1
  setP m ar.2

/-- case 0xF9: SUBTRACT WITH BORROW FROM ACCUMULATOR, ABSOLUTE,Y. -/
def opF9 (m : Machine) : Machine :=
  let rlo := readByte m m.registers.pc
  let m := incPC rlo.2
  let rhi := readByte m m.registers.pc
  let ins23 := rlo.1 ||| rhi.1 <<< 8
  let ins23y := (ins23 + rhi.2.registers.y) % 65536
  let m := if (ins23y &&& 0xFF00) ≠ (ins23 &&& 0xFF00)
           then (readByte rhi.2 rhi.2.registers.pc).2 else rhi.2
  let m := incPC m
  let rv := readByte m ins23y
  let ar := ucodeSubWithCarry rv.2.registers.a rv.1 rv.2.registers.p
  let m := setA rv.2 ar.1
  setP m ar.2

/-- case 0xE1: SUBTRACT WITH BORROW FROM ACCUMULATOR, (INDIRECT,X). -/
def opE1 (m : Machine) : Machine :=
  let r := readByte m m.registers.pc
  let m := incPC r.2
  let rd := readByte m r.1
  let ins2 := (r.1 + rd.2.registers.x) % 256
  let rlo := readByte rd.2 ins2
  let rhi := readByte rlo.2 ((ins2 + 1) % 256)
  let addr := rlo.1 ||| rhi.1 <<< 8
  let rv := readByte rhi.2 addr
  let ar := ucodeSubWithCarry rv.2.registers.a rv.1 rv.2.registers.p
  let m := setA rv.2 ar.1
  setP m ar.2

/-- case 0xF1: SUBTRACT WITH BORROW FROM ACCUMULATOR, (INDIRECT),Y. -/
def opF1 (m : Machine) : Machine :=
  let r := readByte m m.registers.pc
  let rlo := readByte r.2 r.1
  let rhi := readByte rlo.2 ((r.1 + 1) % 256)
  let addr := rlo.1 ||| rhi.1 <<< 8
  let addry := (addr + rhi.2.registers.y) % 65536
  let m := if (addry &&& 0xFF00) ≠ (addr &&& 0xFF00)
           then (readByte rhi.2 rhi.2.registers.pc).2 else rhi.2
  let m := incPC m
  let rv := readByte m addry
  let ar := ucodeSubWithCarry rv.2.registers.a rv.1 rv.2.registers.p
  let m := setA rv.2 ar.1
  setP m ar.2

/-- case 0xF2: SUBTRACT WITH BORROW FROM ACCUMULATOR, (ZEROPAGE). -/
def opF2 (m : Machine) : Machine :=
  let r := readByte m m.registers.pc
  let m := incPC r.2
  let rlo := readByte m r.1
  let rhi := readByte rlo.2 ((r.1 + 1) % 256)
  let addr := rlo.1 ||| rhi.1 <<< 8
  let rv := readByte rhi.2 addr
  let ar := ucodeSubWithCarry rv.2.registers.a rv.1 rv.2.registers.p
  let m := setA rv.2 ar.1
  setP m ar.2

/-- case 0x18: CLEAR CARRY FLAG, IMPLIED. -/
def op18 (m : Machine) : Machine :=
  let r := readByte m m.registers.pc
  setP r.2 (r.2.registers.p &&& (255 - FLAG_CARRY))

/-- case 0xD8: CLEAR DECIMAL MODE FLAG, IMPLIED. -/
def opD8 (m : Machine) : Machine :=
  let r := readByte m m.registers.pc
  setP r.2 (r.2.registers.p &&& (255 - FLAG_DECIMAL))

/-- case 0x58: CLEAR INTERRUPT DISABLE FLAG, IMPLIED. -/
def op58 (m : Machine) : Machine :=
  let r := readByte m m.registers.pc
  setP r.2 (r.2.registers.p &&& (255 - FLAG_IRQDISABLE))

/-- case 0xB8: CLEAR OVERFLOW FLAG, IMPLIED. -/
def opB8 (m : Machine) : Machine :=
  let r := readByte m m.registers.pc
  setP r.2 (r.2.registers.p &&& (255 - FLAG_OVERFLOW))

/-- case 0x38: SET CARRY FLAG, IMPLIED. -/
def op38 (m : Machine) : Machine :=
  let r := readByte m m.registers.pc
  setP r.2 (r.2.registers.p ||| FLAG_CARRY)

/-- case 0xF8: SET DECIMAL MODE FLAG, IMPLIED. -/
def opF8 (m : Machine) : Machine :=
  let r := readByte m m.registers.pc
  setP r.2 (r.2.registers.p ||| FLAG_DECIMAL)

/-- case 0x78: SET INTERRUPT DISABLE FLAG, IMPLIED. -/
def op78 (m : Machine) : Machine :=
  let r := readByte m m.registers.pc
  setP r.2 (r.2.registers.p ||| FLAG_IRQDISABLE)

/-- case 0x4C: JUMP, ABSOLUTE. -/
def op4C (m : Machine) : Machine :=
  let rlo := readByte m m.registers.pc
  let m := incPC rlo.2
  let rhi := readByte m m.registers.pc
  let m := incPC rhi.2
  setPC m (rlo.1 ||| rhi.1 <<< 8)

/-- case 0x6C: JUMP, (ABSOLUTE). -/
def op6C (m : Machine) : Machine :=
  let rlo := readByte m m.registers.pc
  let m := incPC rlo.2
  let rhi := readByte m m.registers.pc
  let ins23 := rlo.1 ||| rhi.1 <<< 8
  let rd := readByte rhi.2 ins23
  let rl2 := readByte rd.2 ins23
  let rh2 := readByte rl2.2 ((ins23 + 1) % 65536)
  setPC rh2.2 (rl2.1 ||| rh2.1 <<< 8)

/-- case 0x7C: JUMP, (ABSOLUTE,X). -/
def op7C (m : Machine) : Machine :=
  let rlo := readByte m m.registers.pc
  let m := incPC rlo.2
  let rhi := readByte m m.registers.pc
  let ins23 := rlo.1 ||| rhi.1 <<< 8
  let rd := readByte rhi.2 ins23
  let i2 := (ins23 + rd.2.registers.x) % 65536
  let rl2 := readByte rd.2 i2
  let rh2 := readByte rl2.2 ((i2 + 1) % 65536)
  setPC rh2.2 (rl2.1 ||| rh2.1 <<< 8)

/-- case 0x20: JUMP SAVING RETURN, ABSOLUTE.  Reads the target low byte,
does the stack dummy read, pushes PC high then low (PC here points at the
high operand byte, i.e. the address after the operands minus one), then
reads the target high byte. -/
def op20 (m : Machine) : Machine :=
  let rlo := readByte m m.registers.pc
  let m := incPC rlo.2
  let rd := readByte m (0x0100 ||| m.registers.sp)
  let p1 := ucodePush rd.2 rd.2.registers.sp (rd.2.registers.pc >>> 8)
  let m := setSP p1.1 p1.2
  let p2 := ucodePush m m.registers.sp m.registers.pc
  let m := setSP p2.1 p2.2
  let rhi := readByte m m.registers.pc
  setPC rhi.2 (rlo.1 ||| rhi.1 <<< 8)

/-- case 0x60: RETURN FROM SUBROUTINE, IMPLIED.  Pops low then high, then
performs the increment read. -/
def op60 (m : Machine) : Machine :=
  let r := readByte m m.registers.pc
  let rd := readByte r.2 (0x0100 ||| r.2.registers.sp)
  let po1 := ucodePop rd.2 rd.2.registers.sp
  let m := setSP po1.2.1 po1.2.2
  let m := setPC m po1.1
  let po2 := ucodePop m m.registers.sp
  let m := setSP po2.2.1 po2.2.2
  let m := setPC m (m.registers.pc ||| po2.1 <<< 8)
  let r2 := readByte m m.registers.pc
  incPC r2.2

/-- case 0x00: BREAK, IMPLIED.  Increments PC past the signature byte,
pushes PC high, PC low, then P | B | bit5, and loads PC from $FFFE/$FFFF.
Note the source never sets the I flag here. -/
def op00 (m : Machine) : Machine :=
  let r := readByte m m.registers.pc
  let m := incPC r.2
  let p1 := ucodePush m m.registers.sp (m.registers.pc >>> 8)
  let m := setSP p1.1 p1.2
  let p2 := ucodePush m m.registers.sp m.registers.pc
  let m := setSP p2.1 p2.2
  let p3 := ucodePush m m.registers.sp
              (m.registers.p ||| FLAG_BREAK ||| FLAG_ONE)
  let m := setSP p3.1 p3.2
  let rlo := readByte m 0xFFFE
  let m := setPC rlo.2 rlo.1
  let rhi := readByte m 0xFFFF
  setPC rhi.2 (rhi.2.registers.pc ||| rhi.1 <<< 8)

/-- case 0x40: RETURN FROM INTERRUPT, IMPLIED. -/
def op40 (m : Machine) : Machine :=
  let r := readByte m m.registers.pc
  let rd := readByte r.2 (0x0100 ||| r.2.registers.sp)
  let po1 := ucodePop rd.2 rd.2.registers.sp
  let m := setSP po1.2.1 po1.2.2
  let m := setP m po1.1
  let po2 := ucodePop m m.registers.sp
  let m := setSP po2.2.1 po2.2.2
  let m := setPC m po2.1
  let po3 := ucodePop m m.registers.sp
  let m := setSP po3.2.1 po3.2.2
  setPC m (m.registers.pc ||| po3.1 <<< 8)

/-- case 0xEA: NO OPERATION (dummy read of PC). -/
def opEA (m : Machine) : Machine :=
  (readByte m m.registers.pc).2

/-- cases 0x02 0x22 0x42 0x62 0x82 0xC2 0xE2: 2-byte 2-cycle illegal NOP.
This is where opcode $02 lands: one more operand read, and the main loop
continues. -/
def op02 (m : Machine) : Machine :=
  let r := readByte m m.registers.pc
  incPC r.2

/-- case 0x44: 2-byte 3-cycle illegal NOP. -/
def op44 (m : Machine) : Machine :=
  let r := readByte m m.registers.pc
  let m := incPC r.2
  (readByte m r.1).2

/-- cases 0x54 0xD4 0xF4: 2-byte 4-cycle illegal NOP. -/
def op54 (m : Machine) : Machine :=
  let r := readByte m m.registers.pc
  let m := incPC r.2
  let rd := readByte m r.1
  let ins2 := (r.1 + rd.2.registers.x) % 256
  (readByte rd.2 ins2).2

/-- cases 0xDC 0xFC: 3-byte 4-cycle illegal NOP. -/
def opDC (m : Machine) : Machine :=
  let rlo := readByte m m.registers.pc
  let m := incPC rlo.2
  let rhi := readByte m m.registers.pc
  let ins23 := rlo.1 ||| rhi.1 <<< 8
  let ins23x := (ins23 + rhi.2.registers.x) % 65536
  let m := incPC rhi.2
  (readByte m ins23x).2

/-- case 0x5C: 3-byte 8-cycle illegal NOP (the trailing waitForCycles(5)
performs no bus access). -/
def op5C (m : Machine) : Machine :=
  let r1 := readByte m m.registers.pc
  let m := incPC r1.2
  let r2 := readByte m m.registers.pc
  incPC r2.2

/-- default case: every other opcode is a 1-byte 1-cycle NOP (no access
beyond the opcode fetch). -/
def opDefault (m : Machine) : Machine := m

/-- The opcode dispatch switch of the main loop. -/
def execOp (ins1 : Nat) (m : Machine) : Machine :=
  if ins1 = 0xA9 then opA9 m
  else if ins1 = 0xA5 then opA5 m
  else if ins1 = 0xB5 then opB5 m
  else if ins1 = 0xAD then opAD m
  else if ins1 = 0xBD then opBD m
  else if ins1 = 0xB9 then opB9 m
  else if ins1 = 0xA1 then opA1 m
  else if ins1 = 0xB1 then opB1 m
  else if ins1 = 0xA2 then opA2 m
  else if ins1 = 0xA6 then opA6 m
  else if ins1 = 0xB6 then opB6 m
  else if ins1 = 0xAE then opAE m
  else if ins1 = 0xBE then opBE m
  else if ins1 = 0xA0 then opA0 m
  else if ins1 = 0xA4 then opA4 m
  else if ins1 = 0xB4 then opB4 m
  else if ins1 = 0xAC then opAC m
  else if ins1 = 0xBC then opBC m
  else if ins1 = 0x85 then op85 m
  else if ins1 = 0x95 then op95 m
  else if ins1 = 0x8D then op8D m
  else if ins1 = 0x9D then op9D m
  else if ins1 = 0x99 then op99 m
  else if ins1 = 0x81 then op81 m
  else if ins1 = 0x91 then op91 m
  else if ins1 = 0x86 then op86 m
  else if ins1 = 0x96 then op96 m
  else if ins1 = 0x8E then op8E m
  else if ins1 = 0x84 then op84 m
  else if ins1 = 0x94 then op94 m
  else if ins1 = 0x8C then op8C m
  else if ins1 = 0xAA then opAA m
  else if ins1 = 0xA8 then opA8 m
  else if ins1 = 0xBA then opBA m
  else if ins1 = 0x8A then op8A m
  else if ins1 = 0x9A then op9A m
  else if ins1 = 0x98 then op98 m
  else if ins1 = 0x48 then op48 m
  else if ins1 = 0x08 then op08 m
  else if ins1 = 0x68 then op68 m
  else if ins1 = 0x28 then op28 m
  else if ins1 = 0xE6 then opE6 m
  else if ins1 = 0xF6 then opF6 m
  else if ins1 = 0xEE then opEE m
  else if ins1 = 0xFE then opFE m
  else if ins1 = 0xE8 then opE8 m
  else if ins1 = 0xC8 then opC8 m
  else if ins1 = 0xC6 then opC6 m
  else if ins1 = 0xD6 then opD6 m
  else if ins1 = 0xCE then opCE m
  else if ins1 = 0xDE then opDE m
  else if ins1 = 0xCA then opCA m
  else if ins1 = 0x88 then op88 m
  else if ins1 = 0x69 then op69 m
  else if ins1 = 0x65 then op65 m
  else if ins1 = 0x75 then op75 m
  else if ins1 = 0x6D then op6D m
  else if ins1 = 0x7D then op7D m
  else if ins1 = 0x79 then op79 m
  else if ins1 = 0x61 then op61 m
  else if ins1 = 0x71 then op71 m
  else if ins1 = 0x72 then op72 m
  else if ins1 = 0xE9 then opE9 m
  else if ins1 = 0xE5 then opE5 m
  else if ins1 = 0xF5 then opF5 m
  else if ins1 = 0xED then opED m
  else if ins1 = 0xFD then opFD m
  else if ins1 = 0xF9 then opF9 m
  else if ins1 = 0xE1 then opE1 m
  else if ins1 = 0xF1 then opF1 m
  else if ins1 = 0xF2 then opF2 m
  else if ins1 = 0x18 then op18 m
  else if ins1 = 0xD8 then opD8 m
  else if ins1 = 0x58 then op58 m
  else if ins1 = 0xB8 then opB8 m
  else if ins1 = 0x38 then op38 m
  else if ins1 = 0xF8 then opF8 m
  else if ins1 = 0x78 then op78 m
  else if ins1 = 0x4C then op4C m
  else if ins1 = 0x6C then op6C m
  else if ins1 = 0x7C then op7C m
  else if ins1 = 0x20 then op20 m
  else if ins1 = 0x60 then op60 m
  else if ins1 = 0x00 then op00 m
  else if ins1 = 0x40 then op40 m
  else if ins1 = 0xEA then opEA m
  else if ins1 = 0x02 ∨ ins1 = 0x22 ∨ ins1 = 0x42 ∨ ins1 = 0x62 ∨
          ins1 = 0x82 ∨ ins1 = 0xC2 ∨ ins1 = 0xE2 then op02 m
  else if ins1 = 0x44 then op44 m
  else if ins1 = 0x54 ∨ ins1 = 0xD4 ∨ ins1 = 0xF4 then op54 m
  else if ins1 = 0xDC ∨ ins1 = 0xFC then opDC m
  else if ins1 = 0x5C then op5C m
  else opDefault m

/-- One iteration of the main fetch/decode/execute loop: fetch the opcode
byte at PC (one cycle), increment PC, dispatch.  The loop itself is
while(true): it runs this forever, with no exit. -/
def step (m : Machine) : Machine :=
  let r := readByte m m.registers.pc
  execOp r.1 (incPC r.2)

/-- The boot-time RAM scramble of main: for each i in 0..32767,
sysram[i] = rand() & rand(), consuming the rand() stream in order. -/
def initSysram (rng : Nat → Nat) : Nat → Nat :=
  fun i => (rng (2 * i) &&& rng (2 * i + 1)) % 256

/-- The state of the machine when the main loop starts: registers are the
static-storage zero values (in particular P = 0; the source has no
initializer for struct registers), sysram is scrambled from the rand()
stream, and PC is loaded from rom0[$1FFC] / rom0[$1FFD] by direct array
access, performing no bus read. -/
def boot (rom0 rom1 rng : Nat → Nat) : Machine :=
  { registers := { pc := (rom0 0x1FFC ||| rom0 0x1FFD <<< 8) % 65536,
                   sp := 0, a := 0, x := 0, y := 0, p := 0 },
    bus := { sysram := initSysram rng, rom0 := rom0, rom1 := rom1,
             rng := rng, rngPos := 2 * 32768 },
    tr := [] }

/-- The step relation of the core: m steps to m₁ in one instruction. -/
def StepRel (m m₁ : Machine) : Prop := step m = m₁

/-- All accesses of a trace touching the given address. -/
def accessesAt (a : Nat) (t : List Access) : List Access :=
  t.filter fun acc => match acc with
    | .read ad _ => ad == a
    | .write ad _ => ad == a

/-- The write accesses of a trace. -/
def writesOf (t : List Access) : List Access :=
  t.filter fun acc => match acc with
    | .read _ _ => false
    | .write _ _ => true

/-! Projection lemmas for the bus operations.  Register updates leave the
bus state alone, so the value of every bus access is a busReadVal of a
busReadBus / busWrite chain, independent of the register file. -/

theorem busReadVal_lt (b : Bus) (addr : Nat) : busReadVal b addr < 256 := by
  unfold busReadVal
  exact Nat.mod_lt _ (by omega)

@[simp] theorem busReadVal_mod256 (b : Bus) (addr : Nat) :
    busReadVal b addr % 256 = busReadVal b addr :=
  Nat.mod_eq_of_lt (busReadVal_lt b addr)

@[simp] theorem busReadVal_mod65536 (b : Bus) (addr : Nat) :
    busReadVal b addr % 65536 = busReadVal b addr :=
  Nat.mod_eq_of_lt (Nat.lt_trans (busReadVal_lt b addr) (by omega))

@[simp] theorem busReadBus_sysram (b : Bus) (addr : Nat) :
    (busReadBus b addr).sysram = b.sysram := by
  unfold busReadBus
  dsimp only
  repeat' split
  all_goals rfl

@[simp] theorem busReadBus_rom0 (b : Bus) (addr : Nat) :
    (busReadBus b addr).rom0 = b.rom0 := by
  unfold busReadBus
  dsimp only
  repeat' split
  all_goals rfl

@[simp] theorem busReadBus_rom1 (b : Bus) (addr : Nat) :
    (busReadBus b addr).rom1 = b.rom1 := by
  unfold busReadBus
  dsimp only
  repeat' split
  all_goals rfl

@[simp] theorem busReadBus_rng (b : Bus) (addr : Nat) :
    (busReadBus b addr).rng = b.rng := by
  unfold busReadBus
  dsimp only
  repeat' split
  all_goals rfl

@[simp] theorem busWrite_rom0 (b : Bus) (addr v : Nat) :
    (busWrite b addr v).rom0 = b.rom0 := by
  unfold busWrite
  dsimp only
  repeat' split
  all_goals rfl

@[simp] theorem busWrite_rom1 (b : Bus) (addr v : Nat) :
    (busWrite b addr v).rom1 = b.rom1 := by
  unfold busWrite
  dsimp only
  repeat' split
  all_goals rfl

@[simp] theorem busWrite_rng (b : Bus) (addr v : Nat) :
    (busWrite b addr v).rng = b.rng := by
  unfold busWrite
  dsimp only
  repeat' split
  all_goals rfl

@[simp] theorem busWrite_rngPos (b : Bus) (addr v : Nat) :
    (busWrite b addr v).rngPos = b.rngPos := by
  unfold busWrite
  dsimp only
  repeat' split
  all_goals rfl

theorem busWrite_sysram_low (b : Bus) (addr v : Nat)
    (h : (addr % 65536) >>> 12 ≤ 0x7) :
    (busWrite b addr v).sysram =
      fun i => if i = addr % 65536 then v % 256 else b.sysram i := by
  unfold busWrite
  dsimp only
  rw [if_pos h]

theorem busReadVal_sysram (b : Bus) (addr : Nat)
    (h : (addr % 65536) >>> 12 ≤ 0x7) :
    busReadVal b addr = b.sysram (addr % 65536) % 256 := by
  unfold busReadVal
  dsimp only
  rw [if_pos h]

@[simp] theorem busReadBus_of_low (b : Bus) (addr : Nat)
    (h : (addr % 65536) >>> 12 ≤ 0x7) : busReadBus b addr = b := by
  unfold busReadBus
  dsimp only
  rw [if_pos h]


@[simp] theorem readByte_fst (m : Machine) (a : Nat) :
    (readByte m a).1 = busReadVal m.bus a := rfl

@[simp] theorem readByte_snd (m : Machine) (a : Nat) :
    (readByte m a).2 =
      { m with bus := busReadBus m.bus a,
               tr := m.tr ++ [Access.read (a % 65536) (busReadVal m.bus a)] } := rfl

@[simp] theorem writeByte_eq (m : Machine) (a v : Nat) :
    writeByte m a v =
      { m with bus := busWrite m.bus a v,
               tr := m.tr ++ [Access.write (a % 65536) (v % 256)] } := rfl

/-! Small bounded bit-level facts about the 8-bit flag operations. -/

theorem or256_eq (v : Nat) (hv : v < 256) : 0x0100 ||| v = 256 + v := by
  revert v
  decide

theorem orC_mod2 : ∀ x < 256, (x ||| 1) % 2 = 1 ∧ x ||| 1 < 256 := by decide

theorem andNotC_mod2 : ∀ x < 256, (x &&& 0xFE) % 2 = 0 ∧ x &&& 0xFE < 256 := by decide

theorem orV_mod2 : ∀ x < 256, (x ||| 0x40) % 2 = x % 2 ∧ x ||| 0x40 < 256 := by decide

theorem andNotV_mod2 : ∀ x < 256, (x &&& 0xBF) % 2 = x % 2 ∧ x &&& 0xBF < 256 := by decide

theorem znNonzeroNeg_mod2 : ∀ x < 256,
    (x &&& 0xFD ||| 0x80) % 2 = x % 2 ∧ x &&& 0xFD ||| 0x80 < 256 := by decide

theorem znNonzeroPos_mod2 : ∀ x < 256,
    ((x &&& 0xFD) &&& 0x7F) % 2 = x % 2 ∧ (x &&& 0xFD) &&& 0x7F < 256 := by decide

theorem znZero_mod2 : ∀ x < 256,
    ((x ||| 2) &&& 0x7F) % 2 = x % 2 ∧ (x ||| 2) &&& 0x7F < 256 := by decide

theorem carryTest_iff : ∀ r < 512, (r &&& 0x100 ≠ 0 ↔ 256 ≤ r) := by decide

/-- ucodeSetZNFlags only touches the Z and N bits: the carry bit (bit 0) is
preserved and the result stays an 8-bit value. -/
theorem ucodeSetZNFlags_mod2 (v p : Nat) (hp : p < 256) :
    ucodeSetZNFlags v p % 2 = p % 2 ∧ ucodeSetZNFlags v p < 256 := by
  unfold ucodeSetZNFlags
  simp only [FLAG_ZERO, FLAG_NEGATIVE]
  split
  · split
    · exact znNonzeroNeg_mod2 p hp
    · exact znNonzeroPos_mod2 p hp
  · exact znZero_mod2 p hp

/-- The 8-bit result of ucodeAddWithCarry: a + b + C, truncated. -/
theorem ucodeAddWithCarry_fst (a b p : Nat) :
    (ucodeAddWithCarry a b p).1 =
      (a + b + (if p % 2 ≠ 0 then 1 else 0)) % 256 := by
  unfold ucodeAddWithCarry
  simp [FLAG_CARRY, Nat.and_one_is_mod]

/-- The carry/overflow tail shared by ucodeAddWithCarry and
ucodeSubWithCarry: after the ZN update, the carry bit is set from bit 8 of
the 16-bit result and the overflow update leaves bit 0 alone. -/
theorem flagsCV_mod2 (res p : Nat) (V : Prop) [Decidable V]
    (hres : res < 512) (hp : p < 256) :
    (if V then
       (if res &&& 0x100 ≠ 0 then ucodeSetZNFlags res p ||| FLAG_CARRY
        else ucodeSetZNFlags res p &&& (255 - FLAG_CARRY)) ||| FLAG_OVERFLOW
     else
       (if res &&& 0x100 ≠ 0 then ucodeSetZNFlags res p ||| FLAG_CARRY
        else ucodeSetZNFlags res p &&& (255 - FLAG_CARRY)) &&&
         (255 - FLAG_OVERFLOW)) % 2
      = (if 256 ≤ res then 1 else 0) := by
  have hzn := ucodeSetZNFlags_mod2 res p hp
  rcases hzn with ⟨h2, hlt⟩
  have hct := carryTest_iff res hres
  by_cases hV : V
  · rw [if_pos hV]
    by_cases hc : res &&& 0x100 ≠ 0
    · rw [if_pos hc, if_pos (hct.mp hc)]
      have h1 := orC_mod2 (ucodeSetZNFlags res p) hlt
      show ((ucodeSetZNFlags res p ||| 1) ||| 64) % 2 = 1
      rw [(orV_mod2 _ h1.2).1, h1.1]
    · rw [if_neg hc, if_neg (fun hle => hc (hct.mpr hle))]
      have h1 := andNotC_mod2 (ucodeSetZNFlags res p) hlt
      show ((ucodeSetZNFlags res p &&& 254) ||| 64) % 2 = 0
      rw [(orV_mod2 _ h1.2).1, h1.1]
  · rw [if_neg hV]
    by_cases hc : res &&& 0x100 ≠ 0
    · rw [if_pos hc, if_pos (hct.mp hc)]
      have h1 := orC_mod2 (ucodeSetZNFlags res p) hlt
      show ((ucodeSetZNFlags res p ||| 1) &&& 191) % 2 = 1
      rw [(andNotV_mod2 _ h1.2).1, h1.1]
    · rw [if_neg hc, if_neg (fun hle => hc (hct.mpr hle))]
      have h1 := andNotC_mod2 (ucodeSetZNFlags res p) hlt
      show ((ucodeSetZNFlags res p &&& 254) &&& 191) % 2 = 0
      rw [(andNotV_mod2 _ h1.2).1, h1.1]

/-- The carry/overflow tail stays an 8-bit value. -/
theorem flagsCV_lt (res p : Nat) (V : Prop) [Decidable V] (hp : p < 256) :
    (if V then
       (if res &&& 0x100 ≠ 0 then ucodeSetZNFlags res p ||| FLAG_CARRY
        else ucodeSetZNFlags res p &&& (255 - FLAG_CARRY)) ||| FLAG_OVERFLOW
     else
       (if res &&& 0x100 ≠ 0 then ucodeSetZNFlags res p ||| FLAG_CARRY
        else ucodeSetZNFlags res p &&& (255 - FLAG_CARRY)) &&&
         (255 - FLAG_OVERFLOW)) < 256 := by
  have hlt := (ucodeSetZNFlags_mod2 res p hp).2
  by_cases hV : V
  · rw [if_pos hV]
    by_cases hc : res &&& 0x100 ≠ 0
    · rw [if_pos hc]
      exact (orV_mod2 _ (orC_mod2 (ucodeSetZNFlags res p) hlt).2).2
    · rw [if_neg hc]
      exact (orV_mod2 _ (andNotC_mod2 (ucodeSetZNFlags res p) hlt).2).2
  · rw [if_neg hV]
    by_cases hc : res &&& 0x100 ≠ 0
    · rw [if_pos hc]
      exact (andNotV_mod2 _ (orC_mod2 (ucodeSetZNFlags res p) hlt).2).2
    · rw [if_neg hc]
      exact (andNotV_mod2 _ (andNotC_mod2 (ucodeSetZNFlags res p) hlt).2).2

/-- The carry bit produced by ucodeAddWithCarry. -/
theorem ucodeAddWithCarry_snd_mod2 (a b p : Nat) (ha : a < 256) (hb : b < 256)
    (hp : p < 256) :
    (ucodeAddWithCarry a b p).2 % 2 =
      (if 256 ≤ a + b + (if p % 2 ≠ 0 then 1 else 0) then 1 else 0) := by
  have hres : a + b + (if p % 2 ≠ 0 then 1 else 0) < 512 := by
    split
    all_goals omega
  unfold ucodeAddWithCarry
  simp only [FLAG_CARRY, Nat.and_one_is_mod]
  exact flagsCV_mod2 _ p _ hres hp

/-- The flags produced by ucodeAddWithCarry stay an 8-bit value. -/
theorem ucodeAddWithCarry_snd_lt (a b p : Nat) (hp : p < 256) :
    (ucodeAddWithCarry a b p).2 < 256 := by
  unfold ucodeAddWithCarry
  simp only [FLAG_CARRY, Nat.and_one_is_mod]
  exact flagsCV_lt _ p _ hp

/-- The 8-bit result of ucodeSubWithCarry: a + (255 - b) + C, truncated. -/
theorem ucodeSubWithCarry_fst (a b p : Nat) :
    (ucodeSubWithCarry a b p).1 =
      (a + (255 - b) + (if p % 2 ≠ 0 then 1 else 0)) % 256 := by
  unfold ucodeSubWithCarry
  simp [FLAG_CARRY, Nat.and_one_is_mod]

/-- The carry bit produced by ucodeSubWithCarry. -/
theorem ucodeSubWithCarry_snd_mod2 (a b p : Nat) (ha : a < 256)
    (hp : p < 256) :
    (ucodeSubWithCarry a b p).2 % 2 =
      (if 256 ≤ a + (255 - b) + (if p % 2 ≠ 0 then 1 else 0) then 1 else 0) := by
  have hres : a + (255 - b) + (if p % 2 ≠ 0 then 1 else 0) < 512 := by
    split
    all_goals omega
  unfold ucodeSubWithCarry
  simp only [FLAG_CARRY, Nat.and_one_is_mod]
  exact flagsCV_mod2 _ p _ hres hp

/-- C7 counterexample: with a = 0, b = 0 and initial flags 0 (carry clear),
the flags produced by adc(0,0) still have the initial carry (clear), yet
sbc(0) on them returns 255, not the original accumulator 0.  So adc(a,b)
followed by sbc(b) with the initial carry preserved does not return to a. -/
theorem adc_sbc_carry_preserved_counterexample :
    (ucodeAddWithCarry 0 0 0).2 &&& FLAG_CARRY = 0 &&& FLAG_CARRY ∧
    (ucodeSubWithCarry (ucodeAddWithCarry 0 0 0).1 0
        (ucodeAddWithCarry 0 0 0).2).1 = 255 ∧
    (ucodeSubWithCarry (ucodeAddWithCarry 0 0 0).1 0
        (ucodeAddWithCarry 0 0 0).2).1 ≠ 0 := by
  decide

/-- C7 amended: adc(a, b) followed by sbc(b) with the carry flag
complemented in between returns the accumulator to a modulo 256, and the
final C flag is the complement of the carry produced by the adc (set
exactly when a + b + C_in < 256); it is not the initial carry in general. -/
theorem adc_then_sbc_with_complemented_carry (a b p : Nat)
    (ha : a < 256) (hb : b < 256) (hp : p < 256) :
    (ucodeSubWithCarry (ucodeAddWithCarry a b p).1 b
        (if p % 2 = 0 then (ucodeAddWithCarry a b p).2 ||| FLAG_CARRY
         else (ucodeAddWithCarry a b p).2 &&& (255 - FLAG_CARRY))).1 = a ∧
    (ucodeSubWithCarry (ucodeAddWithCarry a b p).1 b
        (if p % 2 = 0 then (ucodeAddWithCarry a b p).2 ||| FLAG_CARRY
         else (ucodeAddWithCarry a b p).2 &&& (255 - FLAG_CARRY))).2 % 2 =
      (if a + b + p % 2 < 256 then 1 else 0) := by
  have hA1 := ucodeAddWithCarry_fst a b p
  have hAlt := ucodeAddWithCarry_snd_lt a b p hp
  have hA1lt : (ucodeAddWithCarry a b p).1 < 256 := by
    rw [hA1]
    exact Nat.mod_lt _ (by omega)
  rcases Nat.mod_two_eq_zero_or_one p with hp2 | hp2
  · rw [if_pos hp2]
    have hfixlt : (ucodeAddWithCarry a b p).2 ||| FLAG_CARRY < 256 :=
      (orC_mod2 _ hAlt).2
    have hfix2 : ((ucodeAddWithCarry a b p).2 ||| FLAG_CARRY) % 2 = 1 :=
      (orC_mod2 _ hAlt).1
    have hA1z : (ucodeAddWithCarry a b p).1 = (a + b) % 256 := by
      rw [hA1, hp2]
      simp
    have h1 : (ucodeSubWithCarry (ucodeAddWithCarry a b p).1 b
        ((ucodeAddWithCarry a b p).2 ||| FLAG_CARRY)).1 =
        ((ucodeAddWithCarry a b p).1 + (255 - b) + 1) % 256 := by
      rw [ucodeSubWithCarry_fst, hfix2]
      simp
    have h2 : (ucodeSubWithCarry (ucodeAddWithCarry a b p).1 b
        ((ucodeAddWithCarry a b p).2 ||| FLAG_CARRY)).2 % 2 =
        (if 256 ≤ (ucodeAddWithCarry a b p).1 + (255 - b) + 1 then 1 else 0) := by
      rw [ucodeSubWithCarry_snd_mod2 _ b _ hA1lt hfixlt, hfix2]
      simp
    constructor
    · rw [h1, hA1z]
      omega
    · rw [h2, hA1z, hp2]
      split
      · rw [if_pos (by omega)]
      · rw [if_neg (by omega)]
  · rw [if_neg (by omega : ¬ p % 2 = 0)]
    have hfixlt : (ucodeAddWithCarry a b p).2 &&& (255 - FLAG_CARRY) < 256 :=
      (andNotC_mod2 _ hAlt).2
    have hfix2 : ((ucodeAddWithCarry a b p).2 &&& (255 - FLAG_CARRY)) % 2 = 0 :=
      (andNotC_mod2 _ hAlt).1
    have hA1z : (ucodeAddWithCarry a b p).1 = (a + b + 1) % 256 := by
      rw [hA1, hp2]
      simp
    have h1 : (ucodeSubWithCarry (ucodeAddWithCarry a b p).1 b
        ((ucodeAddWithCarry a b p).2 &&& (255 - FLAG_CARRY))).1 =
        ((ucodeAddWithCarry a b p).1 + (255 - b) + 0) % 256 := by
      rw [ucodeSubWithCarry_fst, hfix2]
      simp
    have h2 : (ucodeSubWithCarry (ucodeAddWithCarry a b p).1 b
        ((ucodeAddWithCarry a b p).2 &&& (255 - FLAG_CARRY))).2 % 2 =
        (if 256 ≤ (ucodeAddWithCarry a b p).1 + (255 - b) + 0 then 1 else 0) := by
      rw [ucodeSubWithCarry_snd_mod2 _ b _ hA1lt hfixlt, hfix2]
      simp
    constructor
    · rw [h1, hA1z]
      omega
    · rw [h2, hA1z, hp2]
      split
      · rw [if_pos (by omega)]
      · rw [if_neg (by omega)]

/-- C7 witness at a = 1, b = 2, C_in = 0. -/
theorem adc_then_sbc_with_complemented_carry_witness :
    (ucodeSubWithCarry (ucodeAddWithCarry 1 2 0).1 2
        (if (0 : Nat) % 2 = 0 then (ucodeAddWithCarry 1 2 0).2 ||| FLAG_CARRY
         else (ucodeAddWithCarry 1 2 0).2 &&& (255 - FLAG_CARRY))).1 = 1 ∧
    (ucodeSubWithCarry (ucodeAddWithCarry 1 2 0).1 2
        (if (0 : Nat) % 2 = 0 then (ucodeAddWithCarry 1 2 0).2 ||| FLAG_CARRY
         else (ucodeAddWithCarry 1 2 0).2 &&& (255 - FLAG_CARRY))).2 % 2 =
      (if 1 + 2 + 0 % 2 < 256 then 1 else 0) :=
  adc_then_sbc_with_complemented_carry 1 2 0 (by decide) (by decide) (by decide)

/-- C10: every bus access is in bounds.  The decode used by readByte and
writeByte indexes sysram only with values below 32768, and rom0 / rom1 only
with addr & $1FFF, which is below 8192; every stack access $0100 | SP with
an 8-bit SP decodes to an in-bounds sysram index.  The last two conjuncts
tie the decode to readByte and writeByte themselves. -/
theorem bus_index_in_bounds (addr sp : Nat) (hsp : sp < 256) :
    (∀ i, busIndex addr = BusTarget.sysramIdx i → i < 32768) ∧
    (∀ i, busIndex addr = BusTarget.rom0Idx i → i < 8192) ∧
    (∀ i, busIndex addr = BusTarget.rom1Idx i → i < 8192) ∧
    busIndex (0x0100 ||| sp) = BusTarget.sysramIdx (256 + sp) ∧
    256 + sp < 32768 ∧
    (∀ b : Bus, busReadVal b addr =
      (match busIndex addr with
       | .sysramIdx i => b.sysram i % 256
       | .rom1Idx i => b.rom1 i % 256
       | .rom0Idx i => b.rom0 i % 256
       | .floating => (b.rng b.rngPos ^^^ b.rng (b.rngPos + 1)) % 256)) ∧
    (∀ b : Bus, ∀ v, (busWrite b addr v).sysram =
      (match busIndex addr with
       | .sysramIdx i => fun j => if j = i then v % 256 else b.sysram j
       | _ => b.sysram)) := by
  have hshift : ∀ n : Nat, n >>> 12 = n / 4096 := by
    intro n
    rw [Nat.shiftRight_eq_div_pow]
  refine ⟨?_, ?_, ?_, ?_, by omega, ?_, ?_⟩
  · intro i h
    unfold busIndex at h
    dsimp only at h
    split at h
    case isTrue hc =>
      cases h
      rw [hshift] at hc
      omega
    all_goals
      split at h
      all_goals first
        | cases h
        | (split at h
           all_goals cases h)
  · intro i h
    unfold busIndex at h
    dsimp only at h
    split at h
    case isTrue hc => cases h
    case isFalse =>
      split at h
      case isTrue => cases h
      case isFalse =>
        split at h
        case isTrue =>
          cases h
          have := Nat.and_le_right (n := addr % 65536) (m := 8191)
          omega
        case isFalse => cases h
  · intro i h
    unfold busIndex at h
    dsimp only at h
    split at h
    case isTrue hc => cases h
    case isFalse =>
      split at h
      case isTrue =>
        cases h
        have := Nat.and_le_right (n := addr % 65536) (m := 8191)
        omega
      case isFalse =>
        split at h
        all_goals cases h
  · rw [or256_eq sp hsp]
    unfold busIndex
    dsimp only
    rw [Nat.mod_eq_of_lt (by omega : 256 + sp < 65536)]
    rw [if_pos (by rw [hshift]; omega)]
  · intro b
    unfold busReadVal busIndex
    dsimp only
    repeat' split
    all_goals simp_all
  · intro b v
    by_cases hc : (addr % 65536) >>> 12 ≤ 7
    · rw [busWrite_sysram_low b addr v hc]
      unfold busIndex
      dsimp only
      rw [if_pos hc]
    · unfold busWrite busIndex
      dsimp only
      simp only [if_neg hc]
      repeat' split
      all_goals first
        | rfl
        | (exfalso
           rename_i heq
           split at heq
           · cases heq
           · split at heq
             · cases heq
             · cases heq)

/-- C10 witness: a concrete sysram address and stack pointer. -/
theorem bus_index_in_bounds_witness :
    busIndex 0x0123 = BusTarget.sysramIdx 0x0123 ∧ 0x0123 < 32768 ∧
    busIndex (0x0100 ||| 0x42) = BusTarget.sysramIdx (256 + 0x42) ∧
    256 + 0x42 < 32768 := by
  have h := bus_index_in_bounds 0x0123 0x42 (by decide)
  exact ⟨by decide, h.1 0x0123 (by decide), h.2.2.2.1, h.2.2.2.2.1⟩

/-- Combining a low byte with a shifted high byte is plain addition. -/
theorem lor_shl8_eq_add (lo hi : Nat) (hlo : lo < 256) :
    lo ||| hi <<< 8 = 256 * hi + lo := by
  have h := Nat.mul_add_lt_is_or (show lo < 2 ^ 8 by omega) hi
  rw [Nat.shiftLeft_eq, Nat.lor_comm, Nat.mul_comm, ← h]

/-- A 16-bit word assembled from two bytes is below 65536. -/
theorem lor_shl8_lt (lo hi : Nat) (hlo : lo < 256) (hhi : hi < 256) :
    lo ||| hi <<< 8 < 65536 := by
  rw [lor_shl8_eq_add lo hi hlo]
  omega

/-- C2 counterexample: at boot the P register is 0, not $20 (struct
registers has static storage and no initializer in the source). -/
theorem boot_p_not_20_counterexample :
    (boot (fun _ => 0) (fun _ => 0) (fun _ => 0)).registers.p = 0 ∧
    (boot (fun _ => 0) (fun _ => 0) (fun _ => 0)).registers.p ≠ 0x20 := by
  exact ⟨rfl, by decide⟩

/-- C2 amended: after loading the ROM images the emulator leaves P at 0 and
sets PC from rom0[$1FFC] / rom0[$1FFD] by direct array access: the value
agrees with what architectural reads of $FFFC/$FFFD would return, but no
bus access happens and no cycle is consumed (the boot trace is empty). -/
theorem boot_sets_pc_without_bus_reads (r0 r1 rng : Nat → Nat)
    (h0 : ∀ i, r0 i < 256) :
    (boot r0 r1 rng).registers.p = 0 ∧
    (boot r0 r1 rng).tr = [] ∧
    (boot r0 r1 rng).registers.pc =
      (readByte (boot r0 r1 rng) 0xFFFC).1 |||
        (readByte (boot r0 r1 rng) 0xFFFD).1 <<< 8 := by
  refine ⟨rfl, rfl, ?_⟩
  have h1 : (readByte (boot r0 r1 rng) 0xFFFC).1 = r0 0x1FFC := by
    show busReadVal (boot r0 r1 rng).bus 0xFFFC = r0 0x1FFC
    unfold busReadVal boot
    norm_num
    exact Nat.mod_eq_of_lt (h0 0x1FFC)
  have h2 : (readByte (boot r0 r1 rng) 0xFFFD).1 = r0 0x1FFD := by
    show busReadVal (boot r0 r1 rng).bus 0xFFFD = r0 0x1FFD
    unfold busReadVal boot
    norm_num
    exact Nat.mod_eq_of_lt (h0 0x1FFD)
  rw [h1, h2]
  show (r0 0x1FFC ||| r0 0x1FFD <<< 8) % 65536 = _
  exact Nat.mod_eq_of_lt (lor_shl8_lt _ _ (h0 0x1FFC) (h0 0x1FFD))

/-- C2 witness: all-zero ROM images. -/
theorem boot_sets_pc_without_bus_reads_witness :
    (boot (fun _ => 0) (fun _ => 0) (fun _ => 0)).registers.p = 0 ∧
    (boot (fun _ => 0) (fun _ => 0) (fun _ => 0)).tr = [] ∧
    (boot (fun _ => 0) (fun _ => 0) (fun _ => 0)).registers.pc =
      (readByte (boot (fun _ => 0) (fun _ => 0) (fun _ => 0)) 0xFFFC).1 |||
        (readByte (boot (fun _ => 0) (fun _ => 0) (fun _ => 0)) 0xFFFD).1 <<< 8 :=
  boot_sets_pc_without_bus_reads (fun _ => 0) (fun _ => 0) (fun _ => 0)
    (fun i => show (0 : Nat) < 256 by omega)

/-- C9 counterexample: two boots with the same ROM images and inputs but
different clock-seeded rand() streams disagree on the initial contents of
SysRAM, so two runs of the program are not bit-identical. -/
theorem boot_sysram_differs_across_seeds_counterexample :
    (boot (fun _ => 0) (fun _ => 0) (fun _ => 0)).bus.sysram 0 ≠
      (boot (fun _ => 0) (fun _ => 0) (fun _ => 1)).bus.sysram 0 := by
  decide

/-- C9 amended: the core is deterministic relative to the rand() stream
(which the source seeds from the boot-time clock): the step relation of
the fetch/decode/execute loop relates every machine state to exactly one
successor. -/
theorem step_deterministic (m m₁ m₂ : Machine)
    (h₁ : StepRel m m₁) (h₂ : StepRel m m₂) : m₁ = m₂ :=
  h₁ ▸ h₂

/-- C9 witness: determinism applied at a concrete boot state. -/
theorem step_deterministic_witness :
    step (boot (fun _ => 0) (fun _ => 0) (fun _ => 0)) =
      step (boot (fun _ => 0) (fun _ => 0) (fun _ => 0)) :=
  step_deterministic (boot (fun _ => 0) (fun _ => 0) (fun _ => 0)) _ _ rfl rfl

/-- C1: opcode $02 does not halt the main loop.  With every byte of memory
equal to $02, boot sets PC to $0202; executing the $02 there consumes two
bytes (it is handled as a 2-byte 2-cycle illegal NOP), and the loop then
fetches another opcode at $0204 — the while(true) loop of the source has
no break, goto or halt path, so no Running-to-Halted transition exists. -/
theorem opcode_02_does_not_halt :
    (step (boot (fun _ => 2) (fun _ => 2) (fun _ => 2))).registers.pc = 0x0204 ∧
    (step (boot (fun _ => 2) (fun _ => 2) (fun _ => 2))).tr =
      [Access.read 0x0202 0x02, Access.read 0x0203 0x02] ∧
    (step (step (boot (fun _ => 2) (fun _ => 2) (fun _ => 2)))).tr =
      [Access.read 0x0202 0x02, Access.read 0x0203 0x02,
       Access.read 0x0204 0x02, Access.read 0x0205 0x02] := by
  decide

/-- C8: the BRK handler never writes the P register: it pushes
P | B | bit5 onto the stack but leaves P itself unchanged, so the I
(interrupt-disable) flag is not set, contrary to the documented behavior. -/
theorem brk_leaves_p_unchanged (m : Machine)
    (h : (readByte m m.registers.pc).1 = 0x00) :
    (step m).registers.p = m.registers.p := by
  unfold step
  dsimp only
  rw [h]
  show (op00 (incPC (readByte m m.registers.pc).2)).registers.p = m.registers.p
  simp [op00, ucodePush, incPC, setPC, setSP]

/-- C8 witness: a concrete state with P = 0 executing BRK keeps P = 0 (the
I flag stays clear). -/
theorem brk_leaves_p_unchanged_witness :
    (step (boot (fun _ => 0) (fun _ => 0) (fun _ => 0))).registers.p =
      (boot (fun _ => 0) (fun _ => 0) (fun _ => 0)).registers.p :=
  brk_leaves_p_unchanged (boot (fun _ => 0) (fun _ => 0) (fun _ => 0)) (by decide)

@[simp] theorem mod256_mod256 (a : Nat) : a % 256 % 256 = a % 256 :=
  Nat.mod_mod_of_dvd a (dvd_refl 256)

/-- Bus trace of INC zeropage: operand fetch, then dummy read, real read
and write, all three at the operand address. -/
theorem opE6_trace (m : Machine) (hpc : m.registers.pc < 65536)
    (htr : m.tr = []) (h : (readByte m m.registers.pc).1 = 0xE6) :
    (step m).tr =
      (let pc1 := (m.registers.pc + 1) % 65536
       let b0 := busReadBus m.bus m.registers.pc
       let z := busReadVal b0 pc1
       let b1 := busReadBus b0 pc1
       let v1 := busReadVal b1 z
       let v2 := busReadVal (busReadBus b1 z) z
       [Access.read m.registers.pc 0xE6, Access.read pc1 z,
        Access.read z v1, Access.read z v2,
        Access.write z ((v2 + 1) % 256)]) := by
  simp only [readByte_fst] at h
  simp [step, h, execOp, opE6, incPC, setPC, setP, htr,
        Nat.mod_eq_of_lt hpc]


@[simp] theorem mod65536_mod65536 (a : Nat) : a % 65536 % 65536 = a % 65536 :=
  Nat.mod_mod_of_dvd a (dvd_refl 65536)

@[simp] theorem mod256_mod65536 (a : Nat) : a % 256 % 65536 = a % 256 :=
  Nat.mod_eq_of_lt (Nat.lt_trans (Nat.mod_lt _ (by omega)) (by omega))

@[simp] theorem mod256_lt (a : Nat) : a % 256 < 256 := Nat.mod_lt _ (by omega)

@[simp] theorem lor_shl8_busReadVal_mod (b c : Bus) (a a2 : Nat) :
    (busReadVal b a ||| busReadVal c a2 <<< 8) % 65536 =
      busReadVal b a ||| busReadVal c a2 <<< 8 :=
  Nat.mod_eq_of_lt (lor_shl8_lt _ _ (busReadVal_lt _ _) (busReadVal_lt _ _))

/-- Bus trace of DEC zeropage: dummy read, real read and write, all three
at the operand address. -/
theorem opC6_trace (m : Machine) (hpc : m.registers.pc < 65536)
    (htr : m.tr = []) (h : (readByte m m.registers.pc).1 = 0xC6) :
    (step m).tr =
      (let pc1 := (m.registers.pc + 1) % 65536
       let b0 := busReadBus m.bus m.registers.pc
       let z := busReadVal b0 pc1
       let b1 := busReadBus b0 pc1
       let v1 := busReadVal b1 z
       let v2 := busReadVal (busReadBus b1 z) z
       [Access.read m.registers.pc 0xC6, Access.read pc1 z,
        Access.read z v1, Access.read z v2,
        Access.write z ((v2 + 255) % 256)]) := by
  simp only [readByte_fst] at h
  simp [step, h, execOp, opC6, incPC, setPC, setP, htr,
        Nat.mod_eq_of_lt hpc]

/-- Bus trace of INC zeropage,X: the two dummy reads happen at the
un-indexed operand address, and the effective address sees one read and
one write. -/
theorem opF6_trace (m : Machine) (hpc : m.registers.pc < 65536)
    (htr : m.tr = []) (h : (readByte m m.registers.pc).1 = 0xF6) :
    (step m).tr =
      (let pc1 := (m.registers.pc + 1) % 65536
       let b0 := busReadBus m.bus m.registers.pc
       let z := busReadVal b0 pc1
       let b1 := busReadBus b0 pc1
       let v1 := busReadVal b1 z
       let b2 := busReadBus b1 z
       let v2 := busReadVal b2 z
       let b3 := busReadBus b2 z
       let t := (z + m.registers.x) % 256
       let v3 := busReadVal b3 t
       [Access.read m.registers.pc 0xF6, Access.read pc1 z,
        Access.read z v1, Access.read z v2, Access.read t v3,
        Access.write t ((v3 + 1) % 256)]) := by
  simp only [readByte_fst] at h
  simp [step, h, execOp, opF6, incPC, setPC, setP, htr,
        Nat.mod_eq_of_lt hpc]

/-- Bus trace of DEC zeropage,X. -/
theorem opD6_trace (m : Machine) (hpc : m.registers.pc < 65536)
    (htr : m.tr = []) (h : (readByte m m.registers.pc).1 = 0xD6) :
    (step m).tr =
      (let pc1 := (m.registers.pc + 1) % 65536
       let b0 := busReadBus m.bus m.registers.pc
       let z := busReadVal b0 pc1
       let b1 := busReadBus b0 pc1
       let v1 := busReadVal b1 z
       let b2 := busReadBus b1 z
       let v2 := busReadVal b2 z
       let b3 := busReadBus b2 z
       let t := (z + m.registers.x) % 256
       let v3 := busReadVal b3 t
       [Access.read m.registers.pc 0xD6, Access.read pc1 z,
        Access.read z v1, Access.read z v2, Access.read t v3,
        Access.write t ((v3 + 255) % 256)]) := by
  simp only [readByte_fst] at h
  simp [step, h, execOp, opD6, incPC, setPC, setP, htr,
        Nat.mod_eq_of_lt hpc]

/-- Bus trace of INC absolute: dummy read, real read and write, all three
at the target address. -/
theorem opEE_trace (m : Machine) (hpc : m.registers.pc < 65536)
    (htr : m.tr = []) (h : (readByte m m.registers.pc).1 = 0xEE) :
    (step m).tr =
      (let pc1 := (m.registers.pc + 1) % 65536
       let pc2 := (m.registers.pc + 1 + 1) % 65536
       let b0 := busReadBus m.bus m.registers.pc
       let lo := busReadVal b0 pc1
       let b1 := busReadBus b0 pc1
       let hi := busReadVal b1 pc2
       let b2 := busReadBus b1 pc2
       let t := lo ||| hi <<< 8
       let v1 := busReadVal b2 t
       let v2 := busReadVal (busReadBus b2 t) t
       [Access.read m.registers.pc 0xEE, Access.read pc1 lo,
        Access.read pc2 hi, Access.read t v1, Access.read t v2,
        Access.write t ((v2 + 1) % 256)]) := by
  simp only [readByte_fst] at h
  simp [step, h, execOp, opEE, incPC, setPC, setP, htr,
        Nat.mod_eq_of_lt hpc]

/-- Bus trace of DEC absolute. -/
theorem opCE_trace (m : Machine) (hpc : m.registers.pc < 65536)
    (htr : m.tr = []) (h : (readByte m m.registers.pc).1 = 0xCE) :
    (step m).tr =
      (let pc1 := (m.registers.pc + 1) % 65536
       let pc2 := (m.registers.pc + 1 + 1) % 65536
       let b0 := busReadBus m.bus m.registers.pc
       let lo := busReadVal b0 pc1
       let b1 := busReadBus b0 pc1
       let hi := busReadVal b1 pc2
       let b2 := busReadBus b1 pc2
       let t := lo ||| hi <<< 8
       let v1 := busReadVal b2 t
       let v2 := busReadVal (busReadBus b2 t) t
       [Access.read m.registers.pc 0xCE, Access.read pc1 lo,
        Access.read pc2 hi, Access.read t v1, Access.read t v2,
        Access.write t ((v2 + 255) % 256)]) := by
  simp only [readByte_fst] at h
  simp [step, h, execOp, opCE, incPC, setPC, setP, htr,
        Nat.mod_eq_of_lt hpc]


/-- Bus trace of INC absolute,X: an unconditional read at the un-indexed
base address, a dummy read at PC only when the page crosses, then one read
and one write at the effective address. -/
theorem opFE_trace (m : Machine) (hpc : m.registers.pc < 65536)
    (htr : m.tr = []) (h : (readByte m m.registers.pc).1 = 0xFE) :
    (step m).tr =
      (let pc1 := (m.registers.pc + 1) % 65536
       let pc2 := (m.registers.pc + 1 + 1) % 65536
       let b0 := busReadBus m.bus m.registers.pc
       let lo := busReadVal b0 pc1
       let b1 := busReadBus b0 pc1
       let hi := busReadVal b1 pc2
       let b2 := busReadBus b1 pc2
       let a := lo ||| hi <<< 8
       let v0 := busReadVal b2 a
       let b3 := busReadBus b2 a
       let t := (a + m.registers.x) % 65536
       if t &&& 0xFF00 ≠ a &&& 0xFF00 then
         [Access.read m.registers.pc 0xFE, Access.read pc1 lo,
          Access.read pc2 hi, Access.read a v0,
          Access.read pc2 (busReadVal b3 pc2),
          Access.read t (busReadVal (busReadBus b3 pc2) t),
          Access.write t ((busReadVal (busReadBus b3 pc2) t + 1) % 256)]
       else
         [Access.read m.registers.pc 0xFE, Access.read pc1 lo,
          Access.read pc2 hi, Access.read a v0,
          Access.read t (busReadVal b3 t),
          Access.write t ((busReadVal b3 t + 1) % 256)]) := by
  simp only [readByte_fst] at h
  unfold step
  dsimp only
  rw [readByte_fst, h]
  show (opFE (incPC (readByte m m.registers.pc).2)).tr = _
  simp only [opFE, incPC, setPC, setP, readByte_fst, readByte_snd,
    writeByte_eq, readByte_snd, Nat.mod_add_mod]
  split
  · simp [h, htr, Nat.mod_eq_of_lt hpc]
  · simp [h, htr, Nat.mod_eq_of_lt hpc]

/-- Bus trace of DEC absolute,X (same access pattern as INC absolute,X). -/
theorem opDE_trace (m : Machine) (hpc : m.registers.pc < 65536)
    (htr : m.tr = []) (h : (readByte m m.registers.pc).1 = 0xDE) :
    (step m).tr =
      (let pc1 := (m.registers.pc + 1) % 65536
       let pc2 := (m.registers.pc + 1 + 1) % 65536
       let b0 := busReadBus m.bus m.registers.pc
       let lo := busReadVal b0 pc1
       let b1 := busReadBus b0 pc1
       let hi := busReadVal b1 pc2
       let b2 := busReadBus b1 pc2
       let a := lo ||| hi <<< 8
       let v0 := busReadVal b2 a
       let b3 := busReadBus b2 a
       let t := (a + m.registers.x) % 65536
       if t &&& 0xFF00 ≠ a &&& 0xFF00 then
         [Access.read m.registers.pc 0xDE, Access.read pc1 lo,
          Access.read pc2 hi, Access.read a v0,
          Access.read pc2 (busReadVal b3 pc2),
          Access.read t (busReadVal (busReadBus b3 pc2) t),
          Access.write t ((busReadVal (busReadBus b3 pc2) t + 255) % 256)]
       else
         [Access.read m.registers.pc 0xDE, Access.read pc1 lo,
          Access.read pc2 hi, Access.read a v0,
          Access.read t (busReadVal b3 t),
          Access.write t ((busReadVal b3 t + 255) % 256)]) := by
  simp only [readByte_fst] at h
  unfold step
  dsimp only
  rw [readByte_fst, h]
  show (opDE (incPC (readByte m m.registers.pc).2)).tr = _
  simp only [opDE, incPC, setPC, setP, readByte_fst, readByte_snd,
    writeByte_eq, Nat.mod_add_mod]
  split
  · simp [h, htr, Nat.mod_eq_of_lt hpc]
  · simp [h, htr, Nat.mod_eq_of_lt hpc]

/-- Bus trace of LDA absolute,X: the page-cross dummy read happens at PC
(the address of the high operand byte), and only when the page crosses. -/
theorem opBD_trace (m : Machine) (hpc : m.registers.pc < 65536)
    (htr : m.tr = []) (h : (readByte m m.registers.pc).1 = 0xBD) :
    (step m).tr =
      (let pc1 := (m.registers.pc + 1) % 65536
       let pc2 := (m.registers.pc + 1 + 1) % 65536
       let b0 := busReadBus m.bus m.registers.pc
       let lo := busReadVal b0 pc1
       let b1 := busReadBus b0 pc1
       let hi := busReadVal b1 pc2
       let b2 := busReadBus b1 pc2
       let a := lo ||| hi <<< 8
       let t := (a + m.registers.x) % 65536
       if t &&& 0xFF00 ≠ a &&& 0xFF00 then
         [Access.read m.registers.pc 0xBD, Access.read pc1 lo,
          Access.read pc2 hi, Access.read pc2 (busReadVal b2 pc2),
          Access.read t (busReadVal (busReadBus b2 pc2) t)]
       else
         [Access.read m.registers.pc 0xBD, Access.read pc1 lo,
          Access.read pc2 hi, Access.read t (busReadVal b2 t)]) := by
  simp only [readByte_fst] at h
  unfold step
  dsimp only
  rw [readByte_fst, h]
  show (opBD (incPC (readByte m m.registers.pc).2)).tr = _
  simp only [opBD, incPC, setPC, setA, setP, readByte_fst, readByte_snd,
    Nat.mod_add_mod]
  split
  · simp [h, htr, Nat.mod_eq_of_lt hpc]
  · simp [h, htr, Nat.mod_eq_of_lt hpc]

/-- Bus trace of LDA absolute,Y (page-cross dummy read at PC, conditional). -/
theorem opB9_trace (m : Machine) (hpc : m.registers.pc < 65536)
    (htr : m.tr = []) (h : (readByte m m.registers.pc).1 = 0xB9) :
    (step m).tr =
      (let pc1 := (m.registers.pc + 1) % 65536
       let pc2 := (m.registers.pc + 1 + 1) % 65536
       let b0 := busReadBus m.bus m.registers.pc
       let lo := busReadVal b0 pc1
       let b1 := busReadBus b0 pc1
       let hi := busReadVal b1 pc2
       let b2 := busReadBus b1 pc2
       let a := lo ||| hi <<< 8
       let t := (a + m.registers.y) % 65536
       if t &&& 0xFF00 ≠ a &&& 0xFF00 then
         [Access.read m.registers.pc 0xB9, Access.read pc1 lo,
          Access.read pc2 hi, Access.read pc2 (busReadVal b2 pc2),
          Access.read t (busReadVal (busReadBus b2 pc2) t)]
       else
         [Access.read m.registers.pc 0xB9, Access.read pc1 lo,
          Access.read pc2 hi, Access.read t (busReadVal b2 t)]) := by
  simp only [readByte_fst] at h
  unfold step
  dsimp only
  rw [readByte_fst, h]
  show (opB9 (incPC (readByte m m.registers.pc).2)).tr = _
  simp only [opB9, incPC, setPC, setA, setP, readByte_fst, readByte_snd,
    Nat.mod_add_mod]
  split
  · simp [h, htr, Nat.mod_eq_of_lt hpc]
  · simp [h, htr, Nat.mod_eq_of_lt hpc]

/-- Bus trace of LDX absolute,Y (page-cross dummy read at PC, conditional). -/
theorem opBE_trace (m : Machine) (hpc : m.registers.pc < 65536)
    (htr : m.tr = []) (h : (readByte m m.registers.pc).1 = 0xBE) :
    (step m).tr =
      (let pc1 := (m.registers.pc + 1) % 65536
       let pc2 := (m.registers.pc + 1 + 1) % 65536
       let b0 := busReadBus m.bus m.registers.pc
       let lo := busReadVal b0 pc1
       let b1 := busReadBus b0 pc1
       let hi := busReadVal b1 pc2
       let b2 := busReadBus b1 pc2
       let a := lo ||| hi <<< 8
       let t := (a + m.registers.y) % 65536
       if t &&& 0xFF00 ≠ a &&& 0xFF00 then
         [Access.read m.registers.pc 0xBE, Access.read pc1 lo,
          Access.read pc2 hi, Access.read pc2 (busReadVal b2 pc2),
          Access.read t (busReadVal (busReadBus b2 pc2) t)]
       else
         [Access.read m.registers.pc 0xBE, Access.read pc1 lo,
          Access.read pc2 hi, Access.read t (busReadVal b2 t)]) := by
  simp only [readByte_fst] at h
  unfold step
  dsimp only
  rw [readByte_fst, h]
  show (opBE (incPC (readByte m m.registers.pc).2)).tr = _
  simp only [opBE, incPC, setPC, setX, setP, readByte_fst, readByte_snd,
    Nat.mod_add_mod]
  split
  · simp [h, htr, Nat.mod_eq_of_lt hpc]
  · simp [h, htr, Nat.mod_eq_of_lt hpc]

/-- Bus trace of LDY absolute,X (page-cross dummy read at PC, conditional). -/
theorem opBC_trace (m : Machine) (hpc : m.registers.pc < 65536)
    (htr : m.tr = []) (h : (readByte m m.registers.pc).1 = 0xBC) :
    (step m).tr =
      (let pc1 := (m.registers.pc + 1) % 65536
       let pc2 := (m.registers.pc + 1 + 1) % 65536
       let b0 := busReadBus m.bus m.registers.pc
       let lo := busReadVal b0 pc1
       let b1 := busReadBus b0 pc1
       let hi := busReadVal b1 pc2
       let b2 := busReadBus b1 pc2
       let a := lo ||| hi <<< 8
       let t := (a + m.registers.x) % 65536
       if t &&& 0xFF00 ≠ a &&& 0xFF00 then
         [Access.read m.registers.pc 0xBC, Access.read pc1 lo,
          Access.read pc2 hi, Access.read pc2 (busReadVal b2 pc2),
          Access.read t (busReadVal (busReadBus b2 pc2) t)]
       else
         [Access.read m.registers.pc 0xBC, Access.read pc1 lo,
          Access.read pc2 hi, Access.read t (busReadVal b2 t)]) := by
  simp only [readByte_fst] at h
  unfold step
  dsimp only
  rw [readByte_fst, h]
  show (opBC (incPC (readByte m m.registers.pc).2)).tr = _
  simp only [opBC, incPC, setPC, setY, setP, readByte_fst, readByte_snd,
    Nat.mod_add_mod]
  split
  · simp [h, htr, Nat.mod_eq_of_lt hpc]
  · simp [h, htr, Nat.mod_eq_of_lt hpc]

/-- Bus trace of LDA (indirect),Y: the page-cross dummy read happens at PC
(still pointing at the zero-page operand byte), and only when the page
crosses. -/
theorem opB1_trace (m : Machine) (hpc : m.registers.pc < 65536)
    (htr : m.tr = []) (h : (readByte m m.registers.pc).1 = 0xB1) :
    (step m).tr =
      (let pc1 := (m.registers.pc + 1) % 65536
       let b0 := busReadBus m.bus m.registers.pc
       let z := busReadVal b0 pc1
       let b1 := busReadBus b0 pc1
       let plo := busReadVal b1 z
       let b2 := busReadBus b1 z
       let phi := busReadVal b2 ((z + 1) % 256)
       let b3 := busReadBus b2 ((z + 1) % 256)
       let a := plo ||| phi <<< 8
       let t := (a + m.registers.y) % 65536
       if t &&& 0xFF00 ≠ a &&& 0xFF00 then
         [Access.read m.registers.pc 0xB1, Access.read pc1 z,
          Access.read z plo, Access.read ((z + 1) % 256) phi,
          Access.read pc1 (busReadVal b3 pc1),
          Access.read t (busReadVal (busReadBus b3 pc1) t)]
       else
         [Access.read m.registers.pc 0xB1, Access.read pc1 z,
          Access.read z plo, Access.read ((z + 1) % 256) phi,
          Access.read t (busReadVal b3 t)]) := by
  simp only [readByte_fst] at h
  unfold step
  dsimp only
  rw [readByte_fst, h]
  show (opB1 (incPC (readByte m m.registers.pc).2)).tr = _
  simp only [opB1, incPC, setPC, setA, setP, readByte_fst, readByte_snd,
    Nat.mod_add_mod]
  split
  · simp [h, htr, Nat.mod_eq_of_lt hpc]
  · simp [h, htr, Nat.mod_eq_of_lt hpc]

/-- Bus trace of STA absolute,X: the dummy read at PC is unconditional,
whether or not the page crosses. -/
theorem op9D_trace (m : Machine) (hpc : m.registers.pc < 65536)
    (htr : m.tr = []) (h : (readByte m m.registers.pc).1 = 0x9D) :
    (step m).tr =
      (let pc1 := (m.registers.pc + 1) % 65536
       let pc2 := (m.registers.pc + 1 + 1) % 65536
       let b0 := busReadBus m.bus m.registers.pc
       let lo := busReadVal b0 pc1
       let b1 := busReadBus b0 pc1
       let hi := busReadVal b1 pc2
       let b2 := busReadBus b1 pc2
       let a := lo ||| hi <<< 8
       let t := (a + m.registers.x) % 65536
       [Access.read m.registers.pc 0x9D, Access.read pc1 lo,
        Access.read pc2 hi, Access.read pc2 (busReadVal b2 pc2),
        Access.write t (m.registers.a % 256)]) := by
  simp only [readByte_fst] at h
  simp [step, h, execOp, op9D, incPC, setPC, htr, Nat.mod_eq_of_lt hpc]

/-- Bus trace of STA absolute,Y: the dummy read at PC is unconditional,
whether or not the page crosses. -/
theorem op99_trace (m : Machine) (hpc : m.registers.pc < 65536)
    (htr : m.tr = []) (h : (readByte m m.registers.pc).1 = 0x99) :
    (step m).tr =
      (let pc1 := (m.registers.pc + 1) % 65536
       let pc2 := (m.registers.pc + 1 + 1) % 65536
       let b0 := busReadBus m.bus m.registers.pc
       let lo := busReadVal b0 pc1
       let b1 := busReadBus b0 pc1
       let hi := busReadVal b1 pc2
       let b2 := busReadBus b1 pc2
       let a := lo ||| hi <<< 8
       let t := (a + m.registers.y) % 65536
       [Access.read m.registers.pc 0x99, Access.read pc1 lo,
        Access.read pc2 hi, Access.read pc2 (busReadVal b2 pc2),
        Access.write t (m.registers.a % 256)]) := by
  simp only [readByte_fst] at h
  simp [step, h, execOp, op99, incPC, setPC, htr, Nat.mod_eq_of_lt hpc]

/-- C3 amended: INC/DEC zero-page and absolute perform exactly three
accesses at the target address (a dummy read, the real read, then the
write); the zero-page,X form performs its two dummy reads at the
un-indexed operand address and only one read and one write at the
effective address; the absolute,X form performs an unconditional read at
the un-indexed base address plus a page-cross dummy read at PC, and only
one read and one write at the effective address. -/
theorem inc_dec_memory_access_pattern (m : Machine)
    (hpc : m.registers.pc < 65536) (htr : m.tr = []) :
    ((readByte m m.registers.pc).1 = 0xE6 →
      (step m).tr =
      (let pc1 := (m.registers.pc + 1) % 65536
       let b0 := busReadBus m.bus m.registers.pc
       let z := busReadVal b0 pc1
       let b1 := busReadBus b0 pc1
       let v1 := busReadVal b1 z
       let v2 := busReadVal (busReadBus b1 z) z
       [Access.read m.registers.pc 0xE6, Access.read pc1 z,
        Access.read z v1, Access.read z v2,
        Access.write z ((v2 + 1) % 256)])) ∧
    ((readByte m m.registers.pc).1 = 0xC6 →
      (step m).tr =
      (let pc1 := (m.registers.pc + 1) % 65536
       let b0 := busReadBus m.bus m.registers.pc
       let z := busReadVal b0 pc1
       let b1 := busReadBus b0 pc1
       let v1 := busReadVal b1 z
       let v2 := busReadVal (busReadBus b1 z) z
       [Access.read m.registers.pc 0xC6, Access.read pc1 z,
        Access.read z v1, Access.read z v2,
        Access.write z ((v2 + 255) % 256)])) ∧
    ((readByte m m.registers.pc).1 = 0xF6 →
      (step m).tr =
      (let pc1 := (m.registers.pc + 1) % 65536
       let b0 := busReadBus m.bus m.registers.pc
       let z := busReadVal b0 pc1
       let b1 := busReadBus b0 pc1
       let v1 := busReadVal b1 z
       let b2 := busReadBus b1 z
       let v2 := busReadVal b2 z
       let b3 := busReadBus b2 z
       let t := (z + m.registers.x) % 256
       let v3 := busReadVal b3 t
       [Access.read m.registers.pc 0xF6, Access.read pc1 z,
        Access.read z v1, Access.read z v2, Access.read t v3,
        Access.write t ((v3 + 1) % 256)])) ∧
    ((readByte m m.registers.pc).1 = 0xD6 →
      (step m).tr =
      (let pc1 := (m.registers.pc + 1) % 65536
       let b0 := busReadBus m.bus m.registers.pc
       let z := busReadVal b0 pc1
       let b1 := busReadBus b0 pc1
       let v1 := busReadVal b1 z
       let b2 := busReadBus b1 z
       let v2 := busReadVal b2 z
       let b3 := busReadBus b2 z
       let t := (z + m.registers.x) % 256
       let v3 := busReadVal b3 t
       [Access.read m.registers.pc 0xD6, Access.read pc1 z,
        Access.read z v1, Access.read z v2, Access.read t v3,
        Access.write t ((v3 + 255) % 256)])) ∧
    ((readByte m m.registers.pc).1 = 0xEE →
      (step m).tr =
      (let pc1 := (m.registers.pc + 1) % 65536
       let pc2 := (m.registers.pc + 1 + 1) % 65536
       let b0 := busReadBus m.bus m.registers.pc
       let lo := busReadVal b0 pc1
       let b1 := busReadBus b0 pc1
       let hi := busReadVal b1 pc2
       let b2 := busReadBus b1 pc2
       let t := lo ||| hi <<< 8
       let v1 := busReadVal b2 t
       let v2 := busReadVal (busReadBus b2 t) t
       [Access.read m.registers.pc 0xEE, Access.read pc1 lo,
        Access.read pc2 hi, Access.read t v1, Access.read t v2,
        Access.write t ((v2 + 1) % 256)])) ∧
    ((readByte m m.registers.pc).1 = 0xCE →
      (step m).tr =
      (let pc1 := (m.registers.pc + 1) % 65536
       let pc2 := (m.registers.pc + 1 + 1) % 65536
       let b0 := busReadBus m.bus m.registers.pc
       let lo := busReadVal b0 pc1
       let b1 := busReadBus b0 pc1
       let hi := busReadVal b1 pc2
       let b2 := busReadBus b1 pc2
       let t := lo ||| hi <<< 8
       let v1 := busReadVal b2 t
       let v2 := busReadVal (busReadBus b2 t) t
       [Access.read m.registers.pc 0xCE, Access.read pc1 lo,
        Access.read pc2 hi, Access.read t v1, Access.read t v2,
        Access.write t ((v2 + 255) % 256)])) ∧
    ((readByte m m.registers.pc).1 = 0xFE →
      (step m).tr =
      (let pc1 := (m.registers.pc + 1) % 65536
       let pc2 := (m.registers.pc + 1 + 1) % 65536
       let b0 := busReadBus m.bus m.registers.pc
       let lo := busReadVal b0 pc1
       let b1 := busReadBus b0 pc1
       let hi := busReadVal b1 pc2
       let b2 := busReadBus b1 pc2
       let a := lo ||| hi <<< 8
       let v0 := busReadVal b2 a
       let b3 := busReadBus b2 a
       let t := (a + m.registers.x) % 65536
       if t &&& 0xFF00 ≠ a &&& 0xFF00 then
         [Access.read m.registers.pc 0xFE, Access.read pc1 lo,
          Access.read pc2 hi, Access.read a v0,
          Access.read pc2 (busReadVal b3 pc2),
          Access.read t (busReadVal (busReadBus b3 pc2) t),
          Access.write t ((busReadVal (busReadBus b3 pc2) t + 1) % 256)]
       else
         [Access.read m.registers.pc 0xFE, Access.read pc1 lo,
          Access.read pc2 hi, Access.read a v0,
          Access.read t (busReadVal b3 t),
          Access.write t ((busReadVal b3 t + 1) % 256)])) ∧
    ((readByte m m.registers.pc).1 = 0xDE →
      (step m).tr =
      (let pc1 := (m.registers.pc + 1) % 65536
       let pc2 := (m.registers.pc + 1 + 1) % 65536
       let b0 := busReadBus m.bus m.registers.pc
       let lo := busReadVal b0 pc1
       let b1 := busReadBus b0 pc1
       let hi := busReadVal b1 pc2
       let b2 := busReadBus b1 pc2
       let a := lo ||| hi <<< 8
       let v0 := busReadVal b2 a
       let b3 := busReadBus b2 a
       let t := (a + m.registers.x) % 65536
       if t &&& 0xFF00 ≠ a &&& 0xFF00 then
         [Access.read m.registers.pc 0xDE, Access.read pc1 lo,
          Access.read pc2 hi, Access.read a v0,
          Access.read pc2 (busReadVal b3 pc2),
          Access.read t (busReadVal (busReadBus b3 pc2) t),
          Access.write t ((busReadVal (busReadBus b3 pc2) t + 255) % 256)]
       else
         [Access.read m.registers.pc 0xDE, Access.read pc1 lo,
          Access.read pc2 hi, Access.read a v0,
          Access.read t (busReadVal b3 t),
          Access.write t ((busReadVal b3 t + 255) % 256)])) := by
  exact ⟨opE6_trace m hpc htr, opC6_trace m hpc htr, opF6_trace m hpc htr, opD6_trace m hpc htr, opEE_trace m hpc htr, opCE_trace m hpc htr, opFE_trace m hpc htr, opDE_trace m hpc htr⟩

/-- C4 amended: STA abs,X and STA abs,Y perform their dummy read (of the
byte at PC) unconditionally; INC/DEC abs,X perform an unconditional read
at the un-indexed base address but their page-cross dummy read (at PC)
only when the page actually crosses; read-class indexed loads perform the
dummy read only when the page crosses. -/
theorem indexed_store_rmw_dummy_read_pattern (m : Machine)
    (hpc : m.registers.pc < 65536) (htr : m.tr = []) :
    ((readByte m m.registers.pc).1 = 0x9D →
      (step m).tr =
      (let pc1 := (m.registers.pc + 1) % 65536
       let pc2 := (m.registers.pc + 1 + 1) % 65536
       let b0 := busReadBus m.bus m.registers.pc
       let lo := busReadVal b0 pc1
       let b1 := busReadBus b0 pc1
       let hi := busReadVal b1 pc2
       let b2 := busReadBus b1 pc2
       let a := lo ||| hi <<< 8
       let t := (a + m.registers.x) % 65536
       [Access.read m.registers.pc 0x9D, Access.read pc1 lo,
        Access.read pc2 hi, Access.read pc2 (busReadVal b2 pc2),
        Access.write t (m.registers.a % 256)])) ∧
    ((readByte m m.registers.pc).1 = 0x99 →
      (step m).tr =
      (let pc1 := (m.registers.pc + 1) % 65536
       let pc2 := (m.registers.pc + 1 + 1) % 65536
       let b0 := busReadBus m.bus m.registers.pc
       let lo := busReadVal b0 pc1
       let b1 := busReadBus b0 pc1
       let hi := busReadVal b1 pc2
       let b2 := busReadBus b1 pc2
       let a := lo ||| hi <<< 8
       let t := (a + m.registers.y) % 65536
       [Access.read m.registers.pc 0x99, Access.read pc1 lo,
        Access.read pc2 hi, Access.read pc2 (busReadVal b2 pc2),
        Access.write t (m.registers.a % 256)])) ∧
    ((readByte m m.registers.pc).1 = 0xFE →
      (step m).tr =
      (let pc1 := (m.registers.pc + 1) % 65536
       let pc2 := (m.registers.pc + 1 + 1) % 65536
       let b0 := busReadBus m.bus m.registers.pc
       let lo := busReadVal b0 pc1
       let b1 := busReadBus b0 pc1
       let hi := busReadVal b1 pc2
       let b2 := busReadBus b1 pc2
       let a := lo ||| hi <<< 8
       let v0 := busReadVal b2 a
       let b3 := busReadBus b2 a
       let t := (a + m.registers.x) % 65536
       if t &&& 0xFF00 ≠ a &&& 0xFF00 then
         [Access.read m.registers.pc 0xFE, Access.read pc1 lo,
          Access.read pc2 hi, Access.read a v0,
          Access.read pc2 (busReadVal b3 pc2),
          Access.read t (busReadVal (busReadBus b3 pc2) t),
          Access.write t ((busReadVal (busReadBus b3 pc2) t + 1) % 256)]
       else
         [Access.read m.registers.pc 0xFE, Access.read pc1 lo,
          Access.read pc2 hi, Access.read a v0,
          Access.read t (busReadVal b3 t),
          Access.write t ((busReadVal b3 t + 1) % 256)])) ∧
    ((readByte m m.registers.pc).1 = 0xDE →
      (step m).tr =
      (let pc1 := (m.registers.pc + 1) % 65536
       let pc2 := (m.registers.pc + 1 + 1) % 65536
       let b0 := busReadBus m.bus m.registers.pc
       let lo := busReadVal b0 pc1
       let b1 := busReadBus b0 pc1
       let hi := busReadVal b1 pc2
       let b2 := busReadBus b1 pc2
       let a := lo ||| hi <<< 8
       let v0 := busReadVal b2 a
       let b3 := busReadBus b2 a
       let t := (a + m.registers.x) % 65536
       if t &&& 0xFF00 ≠ a &&& 0xFF00 then
         [Access.read m.registers.pc 0xDE, Access.read pc1 lo,
          Access.read pc2 hi, Access.read a v0,
          Access.read pc2 (busReadVal b3 pc2),
          Access.read t (busReadVal (busReadBus b3 pc2) t),
          Access.write t ((busReadVal (busReadBus b3 pc2) t + 255) % 256)]
       else
         [Access.read m.registers.pc 0xDE, Access.read pc1 lo,
          Access.read pc2 hi, Access.read a v0,
          Access.read t (busReadVal b3 t),
          Access.write t ((busReadVal b3 t + 255) % 256)])) ∧
    ((readByte m m.registers.pc).1 = 0xBD →
      (step m).tr =
      (let pc1 := (m.registers.pc + 1) % 65536
       let pc2 := (m.registers.pc + 1 + 1) % 65536
       let b0 := busReadBus m.bus m.registers.pc
       let lo := busReadVal b0 pc1
       let b1 := busReadBus b0 pc1
       let hi := busReadVal b1 pc2
       let b2 := busReadBus b1 pc2
       let a := lo ||| hi <<< 8
       let t := (a + m.registers.x) % 65536
       if t &&& 0xFF00 ≠ a &&& 0xFF00 then
         [Access.read m.registers.pc 0xBD, Access.read pc1 lo,
          Access.read pc2 hi, Access.read pc2 (busReadVal b2 pc2),
          Access.read t (busReadVal (busReadBus b2 pc2) t)]
       else
         [Access.read m.registers.pc 0xBD, Access.read pc1 lo,
          Access.read pc2 hi, Access.read t (busReadVal b2 t)])) ∧
    ((readByte m m.registers.pc).1 = 0xB9 →
      (step m).tr =
      (let pc1 := (m.registers.pc + 1) % 65536
       let pc2 := (m.registers.pc + 1 + 1) % 65536
       let b0 := busReadBus m.bus m.registers.pc
       let lo := busReadVal b0 pc1
       let b1 := busReadBus b0 pc1
       let hi := busReadVal b1 pc2
       let b2 := busReadBus b1 pc2
       let a := lo ||| hi <<< 8
       let t := (a + m.registers.y) % 65536
       if t &&& 0xFF00 ≠ a &&& 0xFF00 then
         [Access.read m.registers.pc 0xB9, Access.read pc1 lo,
          Access.read pc2 hi, Access.read pc2 (busReadVal b2 pc2),
          Access.read t (busReadVal (busReadBus b2 pc2) t)]
       else
         [Access.read m.registers.pc 0xB9, Access.read pc1 lo,
          Access.read pc2 hi, Access.read t (busReadVal b2 t)])) ∧
    ((readByte m m.registers.pc).1 = 0xBE →
      (step m).tr =
      (let pc1 := (m.registers.pc + 1) % 65536
       let pc2 := (m.registers.pc + 1 + 1) % 65536
       let b0 := busReadBus m.bus m.registers.pc
       let lo := busReadVal b0 pc1
       let b1 := busReadBus b0 pc1
       let hi := busReadVal b1 pc2
       let b2 := busReadBus b1 pc2
       let a := lo ||| hi <<< 8
       let t := (a + m.registers.y) % 65536
       if t &&& 0xFF00 ≠ a &&& 0xFF00 then
         [Access.read m.registers.pc 0xBE, Access.read pc1 lo,
          Access.read pc2 hi, Access.read pc2 (busReadVal b2 pc2),
          Access.read t (busReadVal (busReadBus b2 pc2) t)]
       else
         [Access.read m.registers.pc 0xBE, Access.read pc1 lo,
          Access.read pc2 hi, Access.read t (busReadVal b2 t)])) ∧
    ((readByte m m.registers.pc).1 = 0xBC →
      (step m).tr =
      (let pc1 := (m.registers.pc + 1) % 65536
       let pc2 := (m.registers.pc + 1 + 1) % 65536
       let b0 := busReadBus m.bus m.registers.pc
       let lo := busReadVal b0 pc1
       let b1 := busReadBus b0 pc1
       let hi := busReadVal b1 pc2
       let b2 := busReadBus b1 pc2
       let a := lo ||| hi <<< 8
       let t := (a + m.registers.x) % 65536
       if t &&& 0xFF00 ≠ a &&& 0xFF00 then
         [Access.read m.registers.pc 0xBC, Access.read pc1 lo,
          Access.read pc2 hi, Access.read pc2 (busReadVal b2 pc2),
          Access.read t (busReadVal (busReadBus b2 pc2) t)]
       else
         [Access.read m.registers.pc 0xBC, Access.read pc1 lo,
          Access.read pc2 hi, Access.read t (busReadVal b2 t)])) ∧
    ((readByte m m.registers.pc).1 = 0xB1 →
      (step m).tr =
      (let pc1 := (m.registers.pc + 1) % 65536
       let b0 := busReadBus m.bus m.registers.pc
       let z := busReadVal b0 pc1
       let b1 := busReadBus b0 pc1
       let plo := busReadVal b1 z
       let b2 := busReadBus b1 z
       let phi := busReadVal b2 ((z + 1) % 256)
       let b3 := busReadBus b2 ((z + 1) % 256)
       let a := plo ||| phi <<< 8
       let t := (a + m.registers.y) % 65536
       if t &&& 0xFF00 ≠ a &&& 0xFF00 then
         [Access.read m.registers.pc 0xB1, Access.read pc1 z,
          Access.read z plo, Access.read ((z + 1) % 256) phi,
          Access.read pc1 (busReadVal b3 pc1),
          Access.read t (busReadVal (busReadBus b3 pc1) t)]
       else
         [Access.read m.registers.pc 0xB1, Access.read pc1 z,
          Access.read z plo, Access.read ((z + 1) % 256) phi,
          Access.read t (busReadVal b3 t)])) := by
  exact ⟨op9D_trace m hpc htr, op99_trace m hpc htr, opFE_trace m hpc htr, opDE_trace m hpc htr, opBD_trace m hpc htr, opB9_trace m hpc htr, opBE_trace m hpc htr, opBC_trace m hpc htr, opB1_trace m hpc htr⟩

/-- C5 amended: when a read-class indexed access crosses a page, the
dummy read is performed at PC — the address of the high operand byte for
the absolute indexed loads, and the zero-page operand address for
(indirect),Y — not at the base page combined with the wrapped low byte of
the effective address. -/
theorem page_cross_dummy_read_at_pc (m : Machine)
    (hpc : m.registers.pc < 65536) (htr : m.tr = []) :
    ((readByte m m.registers.pc).1 = 0xBD →
      (step m).tr =
      (let pc1 := (m.registers.pc + 1) % 65536
       let pc2 := (m.registers.pc + 1 + 1) % 65536
       let b0 := busReadBus m.bus m.registers.pc
       let lo := busReadVal b0 pc1
       let b1 := busReadBus b0 pc1
       let hi := busReadVal b1 pc2
       let b2 := busReadBus b1 pc2
       let a := lo ||| hi <<< 8
       let t := (a + m.registers.x) % 65536
       if t &&& 0xFF00 ≠ a &&& 0xFF00 then
         [Access.read m.registers.pc 0xBD, Access.read pc1 lo,
          Access.read pc2 hi, Access.read pc2 (busReadVal b2 pc2),
          Access.read t (busReadVal (busReadBus b2 pc2) t)]
       else
         [Access.read m.registers.pc 0xBD, Access.read pc1 lo,
          Access.read pc2 hi, Access.read t (busReadVal b2 t)])) ∧
    ((readByte m m.registers.pc).1 = 0xB9 →
      (step m).tr =
      (let pc1 := (m.registers.pc + 1) % 65536
       let pc2 := (m.registers.pc + 1 + 1) % 65536
       let b0 := busReadBus m.bus m.registers.pc
       let lo := busReadVal b0 pc1
       let b1 := busReadBus b0 pc1
       let hi := busReadVal b1 pc2
       let b2 := busReadBus b1 pc2
       let a := lo ||| hi <<< 8
       let t := (a + m.registers.y) % 65536
       if t &&& 0xFF00 ≠ a &&& 0xFF00 then
         [Access.read m.registers.pc 0xB9, Access.read pc1 lo,
          Access.read pc2 hi, Access.read pc2 (busReadVal b2 pc2),
          Access.read t (busReadVal (busReadBus b2 pc2) t)]
       else
         [Access.read m.registers.pc 0xB9, Access.read pc1 lo,
          Access.read pc2 hi, Access.read t (busReadVal b2 t)])) ∧
    ((readByte m m.registers.pc).1 = 0xBE →
      (step m).tr =
      (let pc1 := (m.registers.pc + 1) % 65536
       let pc2 := (m.registers.pc + 1 + 1) % 65536
       let b0 := busReadBus m.bus m.registers.pc
       let lo := busReadVal b0 pc1
       let b1 := busReadBus b0 pc1
       let hi := busReadVal b1 pc2
       let b2 := busReadBus b1 pc2
       let a := lo ||| hi <<< 8
       let t := (a + m.registers.y) % 65536
       if t &&& 0xFF00 ≠ a &&& 0xFF00 then
         [Access.read m.registers.pc 0xBE, Access.read pc1 lo,
          Access.read pc2 hi, Access.read pc2 (busReadVal b2 pc2),
          Access.read t (busReadVal (busReadBus b2 pc2) t)]
       else
         [Access.read m.registers.pc 0xBE, Access.read pc1 lo,
          Access.read pc2 hi, Access.read t (busReadVal b2 t)])) ∧
    ((readByte m m.registers.pc).1 = 0xBC →
      (step m).tr =
      (let pc1 := (m.registers.pc + 1) % 65536
       let pc2 := (m.registers.pc + 1 + 1) % 65536
       let b0 := busReadBus m.bus m.registers.pc
       let lo := busReadVal b0 pc1
       let b1 := busReadBus b0 pc1
       let hi := busReadVal b1 pc2
       let b2 := busReadBus b1 pc2
       let a := lo ||| hi <<< 8
       let t := (a + m.registers.x) % 65536
       if t &&& 0xFF00 ≠ a &&& 0xFF00 then
         [Access.read m.registers.pc 0xBC, Access.read pc1 lo,
          Access.read pc2 hi, Access.read pc2 (busReadVal b2 pc2),
          Access.read t (busReadVal (busReadBus b2 pc2) t)]
       else
         [Access.read m.registers.pc 0xBC, Access.read pc1 lo,
          Access.read pc2 hi, Access.read t (busReadVal b2 t)])) ∧
    ((readByte m m.registers.pc).1 = 0xB1 →
      (step m).tr =
      (let pc1 := (m.registers.pc + 1) % 65536
       let b0 := busReadBus m.bus m.registers.pc
       let z := busReadVal b0 pc1
       let b1 := busReadBus b0 pc1
       let plo := busReadVal b1 z
       let b2 := busReadBus b1 z
       let phi := busReadVal b2 ((z + 1) % 256)
       let b3 := busReadBus b2 ((z + 1) % 256)
       let a := plo ||| phi <<< 8
       let t := (a + m.registers.y) % 65536
       if t &&& 0xFF00 ≠ a &&& 0xFF00 then
         [Access.read m.registers.pc 0xB1, Access.read pc1 z,
          Access.read z plo, Access.read ((z + 1) % 256) phi,
          Access.read pc1 (busReadVal b3 pc1),
          Access.read t (busReadVal (busReadBus b3 pc1) t)]
       else
         [Access.read m.registers.pc 0xB1, Access.read pc1 z,
          Access.read z plo, Access.read ((z + 1) % 256) phi,
          Access.read t (busReadVal b3 t)])) := by
  exact ⟨opBD_trace m hpc htr, opB9_trace m hpc htr, opBE_trace m hpc htr, opBC_trace m hpc htr, opB1_trace m hpc htr⟩

/-- C3 counterexample: INC $10,X with X = 1 (all RAM bytes 5) performs
only two accesses at the effective address $11 — one read and one write;
the two dummy reads land on the un-indexed address $10 instead. -/
theorem inc_zpx_three_accesses_counterexample :
    (let M : Machine :=
      { registers := { pc := 0xE000, sp := 0, a := 0, x := 1, y := 0, p := 0 },
        bus := { sysram := fun _ => 5,
                 rom0 := fun i => if i = 0 then 0xF6 else if i = 1 then 0x10 else 0,
                 rom1 := fun _ => 0, rng := fun _ => 0, rngPos := 0 },
        tr := [] }
     (step M).tr =
        [Access.read 0xE000 0xF6, Access.read 0xE001 0x10,
         Access.read 0x10 5, Access.read 0x10 5,
         Access.read 0x11 5, Access.write 0x11 6] ∧
     accessesAt 0x11 (step M).tr = [Access.read 0x11 5, Access.write 0x11 6] ∧
     (accessesAt 0x11 (step M).tr).length ≠ 3) := by
  decide

/-- C3 witness: INC $10 (zero-page) on a machine with all RAM bytes 5
performs read, read, write at $10, writing 6. -/
theorem inc_dec_memory_access_pattern_witness :
    (step
      { registers := { pc := 0xE000, sp := 0, a := 0, x := 1, y := 0, p := 0 },
        bus := { sysram := fun _ => 5,
                 rom0 := fun i => if i = 0 then 0xE6 else if i = 1 then 0x10 else 0,
                 rom1 := fun _ => 0, rng := fun _ => 0, rngPos := 0 },
        tr := [] }).tr =
      [Access.read 0xE000 0xE6, Access.read 0xE001 0x10,
       Access.read 0x10 5, Access.read 0x10 5, Access.write 0x10 6] := by
  have h := (inc_dec_memory_access_pattern
      { registers := { pc := 0xE000, sp := 0, a := 0, x := 1, y := 0, p := 0 },
        bus := { sysram := fun _ => 5,
                 rom0 := fun i => if i = 0 then 0xE6 else if i = 1 then 0x10 else 0,
                 rom1 := fun _ => 0, rng := fun _ => 0, rngPos := 0 },
        tr := [] } (by decide) rfl).1 (by decide)
  exact h.trans (by decide)

/-- C4 counterexample: INC $2010,X with X = 1 does not cross a page, and
the page-cross dummy read does not happen: the high operand byte at $E002
is read only once, refuting the unconditional write-class penalty for
RMW abs,X. -/
theorem rmw_absx_unconditional_dummy_counterexample :
    (let M : Machine :=
      { registers := { pc := 0xE000, sp := 0, a := 0, x := 1, y := 0, p := 0 },
        bus := { sysram := fun _ => 5,
                 rom0 := fun i => if i = 0 then 0xFE else if i = 1 then 0x10
                                  else if i = 2 then 0x20 else 0,
                 rom1 := fun _ => 0, rng := fun _ => 0, rngPos := 0 },
        tr := [] }
     (step M).tr =
        [Access.read 0xE000 0xFE, Access.read 0xE001 0x10,
         Access.read 0xE002 0x20, Access.read 0x2010 5,
         Access.read 0x2011 5, Access.write 0x2011 6] ∧
     (accessesAt 0xE002 (step M).tr).length = 1) := by
  decide

/-- C4 witness: STA $2010,X with X = 1 (no page cross) still performs the
dummy read of the byte at PC before the write. -/
theorem indexed_store_rmw_dummy_read_pattern_witness :
    (step
      { registers := { pc := 0xE000, sp := 0, a := 0xAA, x := 1, y := 0, p := 0 },
        bus := { sysram := fun _ => 5,
                 rom0 := fun i => if i = 0 then 0x9D else if i = 1 then 0x10
                                  else if i = 2 then 0x20 else 0,
                 rom1 := fun _ => 0, rng := fun _ => 0, rngPos := 0 },
        tr := [] }).tr =
      [Access.read 0xE000 0x9D, Access.read 0xE001 0x10,
       Access.read 0xE002 0x20, Access.read 0xE002 0x20,
       Access.write 0x2011 0xAA] := by
  have h := (indexed_store_rmw_dummy_read_pattern
      { registers := { pc := 0xE000, sp := 0, a := 0xAA, x := 1, y := 0, p := 0 },
        bus := { sysram := fun _ => 5,
                 rom0 := fun i => if i = 0 then 0x9D else if i = 1 then 0x10
                                  else if i = 2 then 0x20 else 0,
                 rom1 := fun _ => 0, rng := fun _ => 0, rngPos := 0 },
        tr := [] } (by decide) rfl).1 (by decide)
  exact h.trans (by decide)

/-- C5 counterexample: LDA $00FF,X with X = 1 crosses a page; the claim
places the dummy read at ($00FF & $FF00) | (($0100) & $FF) = $0000, but
the trace contains no access at $0000 — the dummy read happens at PC
($E002, the high operand byte) instead. -/
theorem page_cross_dummy_address_counterexample :
    (let M : Machine :=
      { registers := { pc := 0xE000, sp := 0, a := 0, x := 1, y := 0, p := 0 },
        bus := { sysram := fun _ => 0x77,
                 rom0 := fun i => if i = 0 then 0xBD else if i = 1 then 0xFF
                                  else if i = 2 then 0x00 else 0,
                 rom1 := fun _ => 0, rng := fun _ => 0, rngPos := 0 },
        tr := [] }
     (step M).tr =
        [Access.read 0xE000 0xBD, Access.read 0xE001 0xFF,
         Access.read 0xE002 0x00, Access.read 0xE002 0x00,
         Access.read 0x0100 0x77] ∧
     accessesAt 0x0000 (step M).tr = [] ∧
     (accessesAt 0xE002 (step M).tr).length = 2) := by
  decide

/-- C5 witness: the crossing LDA $00FF,X access pattern derived from the
amended theorem. -/
theorem page_cross_dummy_read_at_pc_witness :
    (step
      { registers := { pc := 0xE000, sp := 0, a := 0, x := 1, y := 0, p := 0 },
        bus := { sysram := fun _ => 0x66,
                 rom0 := fun i => if i = 0 then 0xBD else if i = 1 then 0xFF
                                  else if i = 2 then 0x00 else 0,
                 rom1 := fun _ => 0, rng := fun _ => 0, rngPos := 0 },
        tr := [] }).tr =
      [Access.read 0xE000 0xBD, Access.read 0xE001 0xFF,
       Access.read 0xE002 0x00, Access.read 0xE002 0x00,
       Access.read 0x0100 0x66] := by
  have h := (page_cross_dummy_read_at_pc
      { registers := { pc := 0xE000, sp := 0, a := 0, x := 1, y := 0, p := 0 },
        bus := { sysram := fun _ => 0x66,
                 rom0 := fun i => if i = 0 then 0xBD else if i = 1 then 0xFF
                                  else if i = 2 then 0x00 else 0,
                 rom1 := fun _ => 0, rng := fun _ => 0, rngPos := 0 },
        tr := [] } (by decide) rfl).1 (by decide)
  exact h.trans (by decide)

/-! Stack accesses: $0100 | SP with an 8-bit SP always lands in sysram. -/

theorem or256_low (sp : Nat) (hsp : sp < 256) :
    ((0x0100 ||| sp) % 65536) >>> 12 ≤ 0x7 := by
  rw [or256_eq sp hsp, Nat.mod_eq_of_lt (by omega), Nat.shiftRight_eq_div_pow]
  omega

theorem stack_addr_eq (sp : Nat) (hsp : sp < 256) :
    (0x0100 ||| sp) % 65536 = 256 + sp := by
  rw [or256_eq sp hsp]
  exact Nat.mod_eq_of_lt (by omega)

theorem busReadBus_stack (b : Bus) (sp : Nat) (hsp : sp < 256) :
    busReadBus b (0x0100 ||| sp) = b :=
  busReadBus_of_low b _ (or256_low sp hsp)

theorem busReadVal_stack (b : Bus) (sp : Nat) (hsp : sp < 256) :
    busReadVal b (0x0100 ||| sp) = b.sysram (256 + sp) % 256 := by
  rw [busReadVal_sysram b _ (or256_low sp hsp), stack_addr_eq sp hsp]

theorem busWrite_stack (b : Bus) (sp v : Nat) (hsp : sp < 256) :
    (busWrite b (0x0100 ||| sp) v).sysram =
      fun i => if i = 256 + sp then v % 256 else b.sysram i := by
  rw [busWrite_sysram_low b _ v (or256_low sp hsp)]
  simp only [stack_addr_eq sp hsp]

theorem shr8_lt (a : Nat) (ha : a < 65536) : a >>> 8 < 256 := by
  rw [Nat.shiftRight_eq_div_pow]
  norm_num
  omega

@[simp] theorem mod65536_shr8_mod256 (a : Nat) :
    ((a % 65536) >>> 8) % 256 = (a % 65536) >>> 8 :=
  Nat.mod_eq_of_lt (shr8_lt _ (Nat.mod_lt _ (by omega)))

@[simp] theorem mod65536_mod256 (a : Nat) : a % 65536 % 256 = a % 256 :=
  Nat.mod_mod_of_dvd a (by omega)

/-- Explicit form of the machine after executing JSR (opcode $20): the low
target byte is read at PC, the stack dummy read happens, PC (now pointing
at the high operand byte) is pushed high-then-low, the high target byte is
read, and PC becomes the target. -/
theorem op20_spec (m : Machine) (hpc : m.registers.pc < 65536)
    (hsp : m.registers.sp < 256) (htr : m.tr = [])
    (h1 : (readByte m m.registers.pc).1 = 0x20) :
    step m =
      (let pc1 := (m.registers.pc + 1) % 65536
       let pc2 := (m.registers.pc + 1 + 1) % 65536
       let b0 := busReadBus m.bus m.registers.pc
       let lo := busReadVal b0 pc1
       let b1 := busReadBus b0 pc1
       let w1 := busWrite b1 (0x0100 ||| m.registers.sp) (pc2 >>> 8)
       let w2 := busWrite w1 (0x0100 ||| (m.registers.sp + 255) % 256) pc2
       let hi := busReadVal w2 pc2
       { registers := { pc := lo ||| hi <<< 8,
                        sp := (m.registers.sp + 255 + 255) % 256,
                        a := m.registers.a, x := m.registers.x,
                        y := m.registers.y, p := m.registers.p },
         bus := busReadBus w2 pc2,
         tr := [Access.read m.registers.pc 0x20, Access.read pc1 lo,
                Access.read (256 + m.registers.sp)
                  (b1.sysram (256 + m.registers.sp) % 256),
                Access.write (256 + m.registers.sp) (pc2 >>> 8),
                Access.write (256 + (m.registers.sp + 255) % 256) (pc2 % 256),
                Access.read pc2 hi] }) := by
  simp only [readByte_fst] at h1
  unfold step
  dsimp only
  rw [readByte_fst, h1]
  show op20 (incPC (readByte m m.registers.pc).2) = _
  simp [op20, ucodePush, incPC, setPC, setSP, htr, h1, Nat.mod_eq_of_lt hpc,
        hsp, busReadBus_stack, busReadVal_stack, stack_addr_eq]

/-- C6: executing JSR target and then, immediately, RTS at the target
restores PC to the instruction after the JSR (PC of the JSR opcode plus
3), restores SP to its value before the JSR, and leaves A, X, Y and P
unmodified.  The only writes performed by the two instructions are the
two JSR pushes — first the high then the low byte of the word
(PC + 1 + 1) mod 65536, which is PC − 1 for PC the address after the two
operand bytes (the last conjunct states this equality). -/
theorem jsr_rts_roundtrip (m : Machine)
    (hpc : m.registers.pc < 65536) (hsp : m.registers.sp < 256)
    (htr : m.tr = [])
    (h1 : (readByte m m.registers.pc).1 = 0x20)
    (h2 : (readByte (step m) (step m).registers.pc).1 = 0x60) :
    (step (step m)).registers.pc = (m.registers.pc + 3) % 65536 ∧
    (step (step m)).registers.sp = m.registers.sp ∧
    (step (step m)).registers.a = m.registers.a ∧
    (step (step m)).registers.x = m.registers.x ∧
    (step (step m)).registers.y = m.registers.y ∧
    (step (step m)).registers.p = m.registers.p ∧
    writesOf (step (step m)).tr =
      [Access.write (256 + m.registers.sp)
         (((m.registers.pc + 1 + 1) % 65536) >>> 8),
       Access.write (256 + (m.registers.sp + 255) % 256)
         ((m.registers.pc + 1 + 1) % 256)] ∧
    256 * (((m.registers.pc + 1 + 1) % 65536) >>> 8) +
        (m.registers.pc + 1 + 1) % 256 =
      ((m.registers.pc + 3) % 65536 + 65535) % 65536 := by
  have c8 : 256 * (((m.registers.pc + 1 + 1) % 65536) >>> 8) +
      (m.registers.pc + 1 + 1) % 256 =
      ((m.registers.pc + 3) % 65536 + 65535) % 65536 := by
    rw [Nat.shiftRight_eq_div_pow]
    norm_num
    omega
  have q1 : (m.registers.sp + 255 + 255 + 1) % 256 =
      (m.registers.sp + 255) % 256 := by
    omega
  have q2 : (m.registers.sp + 255 + 1) % 256 = m.registers.sp := by
    omega
  have q3 : ¬ m.registers.sp = (m.registers.sp + 255) % 256 := by
    omega
  have rec1 : (m.registers.pc + 1 + 1) % 256 |||
      ((((m.registers.pc + 1 + 1) % 65536) >>> 8) <<< 8) =
      (m.registers.pc + 1 + 1) % 65536 := by
    rw [lor_shl8_eq_add _ _ (mod256_lt _), Nat.shiftRight_eq_div_pow]
    norm_num
    omega
  have hM1 := op20_spec m hpc hsp htr h1
  rw [hM1] at h2 ⊢
  simp only [readByte_fst] at h2
  refine ⟨?_, ?_, ?_, ?_, ?_, ?_, ?_, c8⟩
  all_goals
    simp [step, h2, execOp, op60, ucodePop, incPC, setPC, setSP, writesOf,
          q1, q2, q3, hsp, busReadBus_stack, busReadVal_stack, busWrite_stack,
          stack_addr_eq, Nat.mod_eq_of_lt hpc, rec1]

/-- C6 witness: JSR $E010 at $E000 with an RTS at $E010; PC returns to
$E003, SP returns to $FF and A/X/Y/P are untouched. -/
theorem jsr_rts_roundtrip_witness :
    (step (step
      { registers := { pc := 0xE000, sp := 0xFF, a := 7, x := 8, y := 9, p := 0xC3 },
        bus := { sysram := fun _ => 0,
                 rom0 := fun i => if i = 0 then 0x20 else if i = 1 then 0x10
                                  else if i = 2 then 0xE0
                                  else if i = 0x10 then 0x60 else 0xEA,
                 rom1 := fun _ => 0, rng := fun _ => 0, rngPos := 0 },
        tr := [] })).registers.pc = (0xE000 + 3) % 65536 ∧
    (step (step
      { registers := { pc := 0xE000, sp := 0xFF, a := 7, x := 8, y := 9, p := 0xC3 },
        bus := { sysram := fun _ => 0,
                 rom0 := fun i => if i = 0 then 0x20 else if i = 1 then 0x10
                                  else if i = 2 then 0xE0
                                  else if i = 0x10 then 0x60 else 0xEA,
                 rom1 := fun _ => 0, rng := fun _ => 0, rngPos := 0 },
        tr := [] })).registers.sp = 0xFF := by
  have h := jsr_rts_roundtrip
      { registers := { pc := 0xE000, sp := 0xFF, a := 7, x := 8, y := 9, p := 0xC3 },
        bus := { sysram := fun _ => 0,
                 rom0 := fun i => if i = 0 then 0x20 else if i = 1 then 0x10
                                  else if i = 2 then 0xE0
                                  else if i = 0x10 then 0x60 else 0xEA,
                 rom1 := fun _ => 0, rng := fun _ => 0, rngPos := 0 },
        tr := [] } (by decide) (by decide) rfl (by decide) (by decide)
  exact ⟨h.1, h.2.1⟩

end PoppyEMU
